import Mathlib

/-!
Shallow embedding of the discovery scoring pipeline of the ar_portal
repository (app/core/discovery): feature extractors, weight configuration,
scorers, explainability engine and selectors, together with theorems
settling the frozen claims about the natural-language specification.

Numeric model: Python floats are embedded as exact rationals; the single
place the code takes a square root (population standard deviation inside
stream consistency) is embedded over the reals with Real.sqrt.

Time model: a timestamp carries a linear day index used for all window
arithmetic and ordering, plus calendar year and month fields used only for
the month-bucket grouping in active months ratio (the code reads
timestamp.year and timestamp.month there); the embedding does not tie the
two views together, which is conservative.
-/

/-- Timestamp: a day index for ordering and window arithmetic, plus calendar
fields for month bucketing. -/
structure Timestamp where
  day : Int
  year : Int
  month : Int
deriving DecidableEq, Repr

/-- A row of the track_metrics table (fields used by the discovery core).
All metric fields are nullable in the schema, hence Option Int. -/
structure TrackMetric where
  track_id : String
  timestamp : Timestamp
  spotify_streams : Option Int
  spotify_streams_7d : Option Int
  spotify_playlist_count : Option Int
  spotify_chart_position : Option Int
  tiktok_posts_7d : Option Int
  tiktok_views_7d : Option Int
  tiktok_chart_position : Option Int
deriving DecidableEq, Repr

/-- A row of the tracks table (fields used by the discovery core). -/
structure Track where
  id : String
  title : String
  artist_name : String
  first_discovered : Timestamp
deriving DecidableEq, Repr

/-- Python truthiness of a nullable integer column: None and 0 are falsy. -/
def pyTruthy : Option Int → Bool
  | none => false
  | some v => v ≠ 0

/-- Value of a nullable column once the code has established truthiness
(the unwrap that Python performs implicitly). -/
def optVal (o : Option Int) : Int := o.getD 0

/-- The query pattern `filter(p).order_by(timestamp.desc()).first()`:
the row with the greatest timestamp among those satisfying p (keeping the
earliest-inserted row on ties, as a deterministic stand-in for the
unspecified SQL tie order). -/
def latestMetricIn (p : TrackMetric → Bool) (dbm : List TrackMetric) : Option TrackMetric :=
  (dbm.filter p).foldl
    (fun acc m =>
      match acc with
      | none => some m
      | some a => if a.timestamp.day < m.timestamp.day then some m else some a)
    none

/-- Most recent metric row of a track within the last `short` days
(`timestamp >= now - short`). -/
def recentRow (now : Int) (track_id : String) (dbm : List TrackMetric) (short : Int) :
    Option TrackMetric :=
  latestMetricIn (fun m => m.track_id == track_id && decide (now - short ≤ m.timestamp.day)) dbm

/-- Most recent metric row of a track in the baseline window
(`now - long <= timestamp < now - short`). -/
def baselineRow (now : Int) (track_id : String) (dbm : List TrackMetric)
    (short long : Int) : Option TrackMetric :=
  latestMetricIn
    (fun m => m.track_id == track_id &&
      decide (now - long ≤ m.timestamp.day) && decide (m.timestamp.day < now - short))
    dbm

/-- TikTokFeatures.calculate_posts_velocity: growth ratio of the TikTok
7-day posts field between the recent row and the baseline row.  The guard
`if not recent.tiktok_posts_7d or not baseline.tiktok_posts_7d: return 0.0`
is Python truthiness, so a baseline value of 0 already returns 0 there and
the subsequent explicit zero-baseline branch is kept verbatim below it. -/
def TikTokFeatures.calculate_posts_velocity (now : Int) (track_id : String)
    (dbm : List TrackMetric) (short long : Int) : ℚ :=
  match recentRow now track_id dbm short, baselineRow now track_id dbm short long with
  | some recent, some baseline =>
    if !pyTruthy recent.tiktok_posts_7d || !pyTruthy baseline.tiktok_posts_7d then 0
    else if optVal baseline.tiktok_posts_7d = 0 then
      (if optVal recent.tiktok_posts_7d > 0 then 10 else 0)
    else (optVal recent.tiktok_posts_7d : ℚ) / (optVal baseline.tiktok_posts_7d : ℚ)
  | _, _ => 0

/-- TikTokFeatures.calculate_views_velocity: same shape over the TikTok
7-day views field. -/
def TikTokFeatures.calculate_views_velocity (now : Int) (track_id : String)
    (dbm : List TrackMetric) (short long : Int) : ℚ :=
  match recentRow now track_id dbm short, baselineRow now track_id dbm short long with
  | some recent, some baseline =>
    if !pyTruthy recent.tiktok_views_7d || !pyTruthy baseline.tiktok_views_7d then 0
    else if optVal baseline.tiktok_views_7d = 0 then
      (if optVal recent.tiktok_views_7d > 0 then 10 else 0)
    else (optVal recent.tiktok_views_7d : ℚ) / (optVal baseline.tiktok_views_7d : ℚ)
  | _, _ => 0

/-- SpotifyFeatures.calculate_stream_growth: same shape over the Spotify
7-day streams field. -/
def SpotifyFeatures.calculate_stream_growth (now : Int) (track_id : String)
    (dbm : List TrackMetric) (short long : Int) : ℚ :=
  match recentRow now track_id dbm short, baselineRow now track_id dbm short long with
  | some recent, some baseline =>
    if !pyTruthy recent.spotify_streams_7d || !pyTruthy baseline.spotify_streams_7d then 0
    else if optVal baseline.spotify_streams_7d = 0 then
      (if optVal recent.spotify_streams_7d > 0 then 10 else 0)
    else (optVal recent.spotify_streams_7d : ℚ) / (optVal baseline.spotify_streams_7d : ℚ)
  | _, _ => 0

/-- SpotifyFeatures.calculate_playlist_growth: playlist addition ratio; the
recent window is fixed at 7 days and the zero-baseline branch of the source
returns 5.0 (not 10.0), again unreachable behind the truthiness guard. -/
def SpotifyFeatures.calculate_playlist_growth (now : Int) (track_id : String)
    (dbm : List TrackMetric) (period : Int) : ℚ :=
  match recentRow now track_id dbm 7, baselineRow now track_id dbm 7 period with
  | some recent, some baseline =>
    if !pyTruthy recent.spotify_playlist_count || !pyTruthy baseline.spotify_playlist_count then 0
    else if optVal baseline.spotify_playlist_count = 0 then
      (if optVal recent.spotify_playlist_count > 0 then 5 else 0)
    else (optVal recent.spotify_playlist_count : ℚ) / (optVal baseline.spotify_playlist_count : ℚ)
  | _, _ => 0

/-- TikTokFeatures.calculate_cross_platform_confirmation: true only when
both platforms show recent strictly above baseline, each platform checked
only when both its values are truthy and its baseline is positive. -/
def TikTokFeatures.calculate_cross_platform_confirmation (now : Int) (track_id : String)
    (dbm : List TrackMetric) : Bool :=
  match recentRow now track_id dbm 7, baselineRow now track_id dbm 7 30 with
  | some recent, some baseline =>
    let tiktok_growing :=
      pyTruthy recent.tiktok_posts_7d && pyTruthy baseline.tiktok_posts_7d &&
      decide (optVal baseline.tiktok_posts_7d > 0) &&
      decide (optVal recent.tiktok_posts_7d > optVal baseline.tiktok_posts_7d)
    let spotify_growing :=
      pyTruthy recent.spotify_streams_7d && pyTruthy baseline.spotify_streams_7d &&
      decide (optVal baseline.spotify_streams_7d > 0) &&
      decide (optVal recent.spotify_streams_7d > optVal baseline.spotify_streams_7d)
    tiktok_growing && spotify_growing
  | _, _ => false

/-- TikTokFeatures.has_chart_entry: any row in the lookback window with a
non-null TikTok chart position. -/
def TikTokFeatures.has_chart_entry (now : Int) (track_id : String)
    (dbm : List TrackMetric) (lookback_days : Int) : Bool :=
  dbm.any (fun m => m.track_id == track_id &&
    decide (now - lookback_days ≤ m.timestamp.day) && m.tiktok_chart_position.isSome)

/-- SpotifyFeatures.has_chart_presence: any row in the lookback window with
a non-null Spotify chart position. -/
def SpotifyFeatures.has_chart_presence (now : Int) (track_id : String)
    (dbm : List TrackMetric) (lookback_days : Int) : Bool :=
  dbm.any (fun m => m.track_id == track_id &&
    decide (now - lookback_days ≤ m.timestamp.day) && m.spotify_chart_position.isSome)

/-- TemporalFeatures.get_data_points_count: number of metric rows of the
track within the lookback window. -/
def TemporalFeatures.get_data_points_count (now : Int) (track_id : String)
    (dbm : List TrackMetric) (lookback_days : Int) : Nat :=
  (dbm.filter (fun m => m.track_id == track_id &&
    decide (now - lookback_days ≤ m.timestamp.day))).length

/-- SpotifyFeatures.calculate_active_months_ratio: distinct (year, month)
buckets among rows with positive streams, divided by lookback_days / 30,
clamped to 1. -/
def SpotifyFeatures.calculate_active_months_ratio (now : Int) (track_id : String)
    (dbm : List TrackMetric) (lookback_days : Int) : ℚ :=
  let metrics := dbm.filter (fun m => m.track_id == track_id &&
    decide (now - lookback_days ≤ m.timestamp.day) &&
    m.spotify_streams.isSome && decide (optVal m.spotify_streams > 0))
  if metrics.isEmpty then 0
  else
    let active_months := (metrics.map (fun m => (m.timestamp.year, m.timestamp.month))).dedup
    let expected_months : ℚ := (lookback_days : ℚ) / 30
    min 1 ((active_months.length : ℚ) / expected_months)

/-- Python dict .get(key, default) over an association list. -/
def dictGet {α : Type} (d : List (String × α)) (k : String) (default : α) : α :=
  match d.find? (fun kv => kv.1 == k) with
  | some kv => kv.2
  | none => default

/-- TRENDING_WEIGHTS from scoring/weights.py. -/
def TRENDING_WEIGHTS : List (String × ℚ) :=
  [("tiktok_posts_velocity", 30/100),
   ("tiktok_views_velocity", 20/100),
   ("spotify_stream_growth", 20/100),
   ("playlist_growth", 15/100),
   ("cross_platform_boost", 10/100),
   ("chart_entry_bonus", 5/100)]

/-- EVERGREEN_WEIGHTS from scoring/weights.py. -/
def EVERGREEN_WEIGHTS : List (String × ℚ) :=
  [("stream_consistency", 40/100),
   ("active_months_ratio", 30/100),
   ("low_variance_bonus", 20/100),
   ("chart_persistence", 10/100)]

/-- MIN_THRESHOLDS from scoring/weights.py. -/
def MIN_THRESHOLDS : List (String × Int) :=
  [("trending_min_tiktok_posts_7d", 50),
   ("trending_min_spotify_streams_7d", 10000),
   ("trending_min_data_points", 7),
   ("evergreen_min_active_months", 6),
   ("evergreen_min_data_points", 90),
   ("evergreen_min_avg_streams", 5000)]

/-- NORMALIZATION bounds from scoring/weights.py. -/
def NORMALIZATION : List (String × ℚ) :=
  [("max_velocity", 10),
   ("min_velocity", 1),
   ("perfect_consistency", 0),
   ("poor_consistency", 1)]

/-- validate_weights from scoring/weights.py: two sequential asserts that the
weight tables sum to 1.0 within 0.001; an assert failure is an exception at
module import, modelled as Except.error, which aborts process initialization
before any score can be computed. -/
def validate_weights (trending_weights evergreen_weights : List (String × ℚ)) :
    Except String Unit :=
  let trending_sum := (trending_weights.map (fun kv => kv.2)).sum
  let evergreen_sum := (evergreen_weights.map (fun kv => kv.2)).sum
  if !decide (|trending_sum - 1| < 1/1000) then
    Except.error ("Trending weights sum to " ++ toString trending_sum ++ ", not 1.0")
  else if !decide (|evergreen_sum - 1| < 1/1000) then
    Except.error ("Evergreen weights sum to " ++ toString evergreen_sum ++ ", not 1.0")
  else Except.ok ()

/-- TrendingScorer.normalize_velocity: linear map of a growth ratio onto
[0, 1] between the configured min and max velocity bounds. -/
def TrendingScorer.normalize_velocity (velocity : ℚ) : ℚ :=
  let min_vel := dictGet NORMALIZATION "min_velocity" 0
  let max_vel := dictGet NORMALIZATION "max_velocity" 0
  if velocity ≤ min_vel then 0
  else if velocity ≥ max_vel then 1
  else (velocity - min_vel) / (max_vel - min_vel)

/-- TrendingScorer._check_thresholds: a recent row must exist within 7 days;
the TikTok and Spotify minimums are each checked only when the field is
truthy (non-null and nonzero, Python truthiness); and at least 7 data points
must exist in the trailing 30 days. -/
def TrendingScorer.check_thresholds (now : Int) (track_id : String)
    (dbm : List TrackMetric) : Bool :=
  match recentRow now track_id dbm 7 with
  | none => false
  | some recent =>
    if pyTruthy recent.tiktok_posts_7d &&
        decide (optVal recent.tiktok_posts_7d <
          dictGet MIN_THRESHOLDS "trending_min_tiktok_posts_7d" 0) then false
    else if pyTruthy recent.spotify_streams_7d &&
        decide (optVal recent.spotify_streams_7d <
          dictGet MIN_THRESHOLDS "trending_min_spotify_streams_7d" 0) then false
    else if decide ((TemporalFeatures.get_data_points_count now track_id dbm 30 : Int) <
        dictGet MIN_THRESHOLDS "trending_min_data_points" 0) then false
    else true

/-- TrendingScorer.calculate_score: build the six-component dict, take the
weighted sum over TRENDING_WEIGHTS via components.get(feature, 0.0), scale
by 100 and pair with the threshold gate. -/
def TrendingScorer.calculate_score (now : Int) (track_id : String)
    (dbm : List TrackMetric) : ℚ × List (String × ℚ) × Bool :=
  let components : List (String × ℚ) :=
    [("tiktok_posts_velocity", TrendingScorer.normalize_velocity
        (TikTokFeatures.calculate_posts_velocity now track_id dbm 7 30)),
     ("tiktok_views_velocity", TrendingScorer.normalize_velocity
        (TikTokFeatures.calculate_views_velocity now track_id dbm 7 30)),
     ("spotify_stream_growth", TrendingScorer.normalize_velocity
        (SpotifyFeatures.calculate_stream_growth now track_id dbm 7 30)),
     ("playlist_growth", TrendingScorer.normalize_velocity
        (SpotifyFeatures.calculate_playlist_growth now track_id dbm 30)),
     ("cross_platform_boost",
        if TikTokFeatures.calculate_cross_platform_confirmation now track_id dbm then 1 else 0),
     ("chart_entry_bonus",
        if TikTokFeatures.has_chart_entry now track_id dbm 30 ||
           SpotifyFeatures.has_chart_presence now track_id dbm 30 then 1 else 0)]
  let total_score :=
    TRENDING_WEIGHTS.foldl (fun acc fw => acc + dictGet components fw.1 0 * fw.2) 0
  let total_score := total_score * 100
  (total_score, components, TrendingScorer.check_thresholds now track_id dbm)

/-- The rows feeding stream consistency: metrics of the track in the
lookback window whose spotify_streams field is non-null (the count the
30-point minimum is taken over). -/
def consistencyQualifying (now : Int) (track_id : String) (dbm : List TrackMetric)
    (lookback_days : Int) : List TrackMetric :=
  dbm.filter (fun m => m.track_id == track_id &&
    decide (now - lookback_days ≤ m.timestamp.day) && m.spotify_streams.isSome)

/-- The stream values actually averaged: the Python comprehension filters by
truthiness, dropping null and zero values. -/
def consistencyStreams (metrics : List TrackMetric) : List Int :=
  metrics.filterMap (fun m =>
    match m.spotify_streams with
    | some v => if v ≠ 0 then some v else none
    | none => none)

/-- np.mean of a list of integer stream counts. -/
noncomputable def streamMean (streams : List Int) : ℝ :=
  (streams.sum : ℝ) / streams.length

/-- np.std of a list of integer stream counts: the population standard
deviation, the square root of the mean squared deviation. -/
noncomputable def streamStd (streams : List Int) : ℝ :=
  Real.sqrt ((streams.map (fun (v : Int) => ((v : ℝ) - streamMean streams) ^ 2)).sum /
    streams.length)

/-- SpotifyFeatures.calculate_stream_consistency: with fewer than 30
qualifying rows return 0; otherwise score max(0, 1 - std/mean) of the
truthy stream values, clamped to 1, where std is the population standard
deviation (np.std); 0 when the mean is 0 or the value list is empty or its
maximum is 0. -/
noncomputable def SpotifyFeatures.calculate_stream_consistency (now : Int) (track_id : String)
    (dbm : List TrackMetric) (lookback_days : Int) : ℝ :=
  let metrics := consistencyQualifying now track_id dbm lookback_days
  if metrics.length < 30 then 0
  else
    let streams := consistencyStreams metrics
    if streams.isEmpty || streams.max? == some 0 then 0
    else
      let mean_streams := streamMean streams
      let std_streams := streamStd streams
      if mean_streams = 0 then 0
      else
        let cv := std_streams / mean_streams
        min 1 (max 0 (1 - cv))

/-- EvergreenScorer._check_thresholds: at least 90 data points in the
trailing 365 days, active-months ratio at least 6/12, and mean non-null
Spotify streams over the trailing 180 days at least 5000 (False when no
non-null stream row exists in that window; when rows exist but every value
is zero, np.mean of the empty truthy list is NaN and the NaN < 5000
comparison is False, so the check falls through — kept verbatim). -/
def EvergreenScorer.check_thresholds (now : Int) (track_id : String)
    (dbm : List TrackMetric) : Bool :=
  if decide ((TemporalFeatures.get_data_points_count now track_id dbm 365 : Int) <
      dictGet MIN_THRESHOLDS "evergreen_min_data_points" 0) then false
  else
    let active_ratio := SpotifyFeatures.calculate_active_months_ratio now track_id dbm 365
    let expected_active : ℚ := ((dictGet MIN_THRESHOLDS "evergreen_min_active_months" 0 : Int) : ℚ) / 12
    if decide (active_ratio < expected_active) then false
    else
      let metrics := dbm.filter (fun m => m.track_id == track_id &&
        decide (now - 180 ≤ m.timestamp.day) && m.spotify_streams.isSome)
      if !metrics.isEmpty then
        let vals := consistencyStreams metrics
        if vals.isEmpty then true
        else
          let avg_streams : ℚ := (vals.sum : ℚ) / vals.length
          if decide (avg_streams < ((dictGet MIN_THRESHOLDS "evergreen_min_avg_streams" 0 : Int) : ℚ))
          then false else true
      else false

/-- EvergreenScorer.calculate_score: consistency, active-months ratio, the
discretized low-variance bonus derived from consistency, chart persistence;
weighted sum over EVERGREEN_WEIGHTS scaled by 100, paired with the gate. -/
noncomputable def EvergreenScorer.calculate_score (now : Int) (track_id : String)
    (dbm : List TrackMetric) : ℝ × List (String × ℝ) × Bool :=
  let consistency := SpotifyFeatures.calculate_stream_consistency now track_id dbm 180
  let active_ratio := SpotifyFeatures.calculate_active_months_ratio now track_id dbm 365
  let low_variance_bonus : ℝ :=
    if consistency > 8/10 then 1 else if consistency > 6/10 then 1/2 else 0
  let has_chart := SpotifyFeatures.has_chart_presence now track_id dbm 180
  let components : List (String × ℝ) :=
    [("stream_consistency", consistency),
     ("active_months_ratio", (active_ratio : ℝ)),
     ("low_variance_bonus", low_variance_bonus),
     ("chart_persistence", if has_chart then 1 else 0)]
  let total_score :=
    EVERGREEN_WEIGHTS.foldl (fun acc fw => acc + dictGet components fw.1 0 * (fw.2 : ℝ)) 0
  let total_score := total_score * 100
  (total_score, components, EvergreenScorer.check_thresholds now track_id dbm)

/-- Banker-rounded integer nearest to a rational (Python round: ties to
even). -/
def pyRoundInt (x : ℚ) : Int :=
  let f := ⌊x⌋
  let frac := x - f
  if frac < 1/2 then f
  else if frac > 1/2 then f + 1
  else if f % 2 = 0 then f else f + 1

/-- Python round(x, ndigits) over rationals. -/
def pyRound (x : ℚ) (ndigits : Nat) : ℚ :=
  (pyRoundInt (x * 10 ^ ndigits) : ℚ) / 10 ^ ndigits

/-- Banker-rounded integer nearest to a real. -/
noncomputable def pyRoundIntR (x : ℝ) : Int :=
  let f := ⌊x⌋
  let frac := x - f
  if frac < 1/2 then f
  else if frac > 1/2 then f + 1
  else if f % 2 = 0 then f else f + 1

/-- Python round(x, ndigits) over reals. -/
noncomputable def pyRoundR (x : ℝ) (ndigits : Nat) : ℝ :=
  (pyRoundIntR (x * 10 ^ ndigits) : ℝ) / 10 ^ ndigits

/-- Digit string of a scaled integer with nd fractional digits (the shared
tail of fixed-point formatting). -/
def digitsFixed (scaled : Int) (nd : Nat) : String :=
  let sign := if scaled < 0 then "-" else ""
  let a := scaled.natAbs
  let ip := a / 10 ^ nd
  let fp := a % 10 ^ nd
  let fpStr := toString fp
  let pad := String.mk (List.replicate (nd - fpStr.length) '0')
  sign ++ toString ip ++ "." ++ pad ++ fpStr

/-- Python fixed-point format f-string, e.g. {v:.1f}, over rationals. -/
def fmtFixed (x : ℚ) (nd : Nat) : String :=
  digitsFixed (pyRoundInt (x * 10 ^ nd)) nd

/-- Python fixed-point format over reals. -/
noncomputable def fmtFixedR (x : ℝ) (nd : Nat) : String :=
  digitsFixed (pyRoundIntR (x * 10 ^ nd)) nd

/-- Python int() truncation toward zero of a real. -/
noncomputable def intTrunc (x : ℝ) : Int :=
  if 0 ≤ x then ⌊x⌋ else -⌊-x⌋

/-- TemporalFeatures.get_track_age_days: days since first discovery. -/
def TemporalFeatures.get_track_age_days (now : Int) (track : Track) : Int :=
  now - track.first_discovered.day

/-- The dict returned by the explainability engine. -/
structure Explanation where
  why_selected : List String
  risk_flags : List String
deriving DecidableEq, Repr

/-- ExplainabilityEngine.explain_trending: the rule list of the source in
order; each rule appends one sentence to why_selected or risk_flags. -/
def ExplainabilityEngine.explain_trending (now : Int) (track : Track) (track_id : String)
    (components : List (String × ℚ)) (dbm : List TrackMetric) : Explanation :=
  let why1 := if dictGet components "tiktok_posts_velocity" 0 > 1/2 then
    ["TikTok posts growing " ++
      fmtFixed (TikTokFeatures.calculate_posts_velocity now track_id dbm 7 30) 1 ++
      "x (7d vs 30d)"] else []
  let why2 := if dictGet components "tiktok_views_velocity" 0 > 1/2 then
    ["TikTok views accelerating " ++
      fmtFixed (TikTokFeatures.calculate_views_velocity now track_id dbm 7 30) 1 ++ "x"] else []
  let why3 := if dictGet components "spotify_stream_growth" 0 > 1/2 then
    ["Spotify streams up " ++
      fmtFixed (SpotifyFeatures.calculate_stream_growth now track_id dbm 7 30) 1 ++
      "x in past week"] else []
  let why4 := if dictGet components "playlist_growth" 0 > 1/2 then
    ["Adding to Spotify playlists rapidly"] else []
  let crossPair :=
    if dictGet components "cross_platform_boost" 0 = 1 then
      (["Growing on BOTH TikTok and Spotify (high confidence)"], ([] : List String))
    else ([], ["Single-platform growth only (may not translate)"])
  let why6 := if dictGet components "chart_entry_bonus" 0 = 1 then
    ["Appeared on TikTok or Spotify charts"] else []
  let track_age := TemporalFeatures.get_track_age_days now track
  let risk2 := if track_age < 7 then
    ["Very new to system (" ++ toString track_age ++ " days) - limited data"] else []
  let data_points := TemporalFeatures.get_data_points_count now track_id dbm 30
  let risk3 := if data_points < 15 then
    ["Limited historical data (" ++ toString data_points ++ " points)"] else []
  let risk4 :=
    match recentRow now track_id dbm 7 with
    | some recent =>
      (if !pyTruthy recent.tiktok_posts_7d || decide (optVal recent.tiktok_posts_7d < 50) then
        ["Low/no TikTok presence"] else []) ++
      (if !pyTruthy recent.spotify_streams_7d ||
          decide (optVal recent.spotify_streams_7d < 10000) then
        ["Low Spotify streams"] else [])
    | none => []
  { why_selected := why1 ++ why2 ++ why3 ++ why4 ++ crossPair.1 ++ why6,
    risk_flags := crossPair.2 ++ risk2 ++ risk3 ++ risk4 }

/-- ExplainabilityEngine.explain_evergreen: the evergreen rule list of the
source in order. -/
noncomputable def ExplainabilityEngine.explain_evergreen (now : Int) (track : Track)
    (track_id : String) (components : List (String × ℝ)) (dbm : List TrackMetric) :
    Explanation :=
  let consistency := dictGet components "stream_consistency" 0
  let consPair :=
    if consistency > 8/10 then
      (["Extremely consistent streams (CV score: " ++ fmtFixedR consistency 2 ++ ")"],
       ([] : List String))
    else if consistency > 6/10 then
      (["Stable streaming pattern (CV score: " ++ fmtFixedR consistency 2 ++ ")"], [])
    else ([], ["Some variance in streams (CV score: " ++ fmtFixedR consistency 2 ++ ")"])
  let active_ratio := dictGet components "active_months_ratio" 0
  let activePair :=
    if active_ratio > 9/10 then
      (["Active " ++ toString (intTrunc (active_ratio * 12)) ++ "/12 months in past year"],
       ([] : List String))
    else if active_ratio > 7/10 then
      (["Consistent presence (" ++ toString (intTrunc (active_ratio * 12)) ++
        "/12 months active)"], [])
    else ([], ["Gaps in streaming activity"])
  let why3 := if dictGet components "low_variance_bonus" 0 = 1 then
    ["Very low variance - highly predictable cashflow"] else []
  let why4 := if dictGet components "chart_persistence" 0 = 1 then
    ["Long-term chart presence (180+ days)"] else []
  let track_age := TemporalFeatures.get_track_age_days now track
  let risk3 := if track_age < 180 then
    ["Relatively new (" ++ toString track_age ++ " days) - evergreen status unproven"] else []
  let data_points := TemporalFeatures.get_data_points_count now track_id dbm 365
  let risk4 := if data_points < 180 then
    ["Limited long-term data (" ++ toString data_points ++ " points)"] else []
  let growth := SpotifyFeatures.calculate_stream_growth now track_id dbm 7 30
  let risk5 :=
    if growth > 3 then ["Currently experiencing viral growth - may destabilize"]
    else if growth < 7/10 then ["Declining streams - may be losing evergreen status"]
    else []
  { why_selected := consPair.1 ++ activePair.1 ++ why3 ++ why4,
    risk_flags := consPair.2 ++ activePair.2 ++ risk3 ++ risk4 ++ risk5 }

/-- ExplainabilityEngine.generate_summary: severity tier from the score of
the active mode plus the first why_selected reason; polymorphic in the
numeric type so the rational trending path and the real evergreen path share
one embedding of the source function. -/
def ExplainabilityEngine.generate_summary {α : Type} [LinearOrderedField α] (track : Track)
    (trending_score evergreen_score : α) (mode : String)
    (why_selected risk_flags : List String) : String :=
  if mode == "trending" then
    let level : String :=
      if trending_score > 80 then "Strong"
      else if trending_score > 60 then "Moderate"
      else "Emerging"
    let summary := level ++ " momentum"
    if why_selected.length > 0 then summary ++ ": " ++ why_selected.headD "" else summary
  else
    let level : String :=
      if evergreen_score > 80 then "Highly stable"
      else if evergreen_score > 60 then "Stable"
      else "Moderately stable"
    let summary := level ++ " evergreen track"
    if why_selected.length > 0 then summary ++ " - " ++ why_selected.headD "" else summary

/-- A row of the track_scores table: trending scores are produced by the
rational trending pipeline, evergreen scores by the real-valued evergreen
pipeline (the only square root lives there), so the two nullable score
columns are embedded at those respective types. -/
structure TrackScore where
  track_id : String
  computed_at : Int
  trending_score : Option ℚ
  evergreen_score : Option ℝ
  components : List (String × ℝ)
  why_selected : List String
  risk_flags : List String

/-- A row of the discovery_runs table with its column defaults. -/
structure DiscoveryRun where
  run_type : String
  started_at : Int
  completed_at : Option Int
  tracks_processed : Int
  tracks_new : Int
  tracks_updated : Int
  status : String
  error_message : Option String
deriving DecidableEq, Repr

/-- The relational store visible to the discovery core. -/
structure Db where
  tracks : List Track
  metrics : List TrackMetric
  scores : List TrackScore
  runs : List DiscoveryRun

/-- Python truthiness of a nullable float column: None and 0.0 are falsy. -/
def pyTruthyQ : Option ℚ → Bool
  | none => false
  | some v => v ≠ 0

/-- The query `filter(track_id).order_by(computed_at.desc()).first()` over
track_scores. -/
def latestScoreRow (track_id : String) (scores : List TrackScore) : Option TrackScore :=
  (scores.filter (fun s => s.track_id == track_id)).foldl
    (fun acc s =>
      match acc with
      | none => some s
      | some a => if a.computed_at < s.computed_at then some s else some a)
    none

/-- TrendingSelector.score_and_persist: score, gate, explain, then append a
new TrackScore row carrying only the trending score (the source constructs
the row without an evergreen_score argument, so that column stays null). -/
def TrendingSelector.score_and_persist (now : Int) (track : Track) (track_id : String)
    (db : Db) : Option TrackScore × Db :=
  let r := TrendingScorer.calculate_score now track_id db.metrics
  if !r.2.2 then (none, db)
  else
    let explanation := ExplainabilityEngine.explain_trending now track track_id r.2.1 db.metrics
    let track_score : TrackScore :=
      { track_id := track_id, computed_at := now,
        trending_score := some r.1, evergreen_score := none,
        components := r.2.1.map (fun kv => (kv.1, ((pyRound kv.2 4 : ℚ) : ℝ))),
        why_selected := explanation.why_selected,
        risk_flags := explanation.risk_flags }
    (some track_score, { db with scores := db.scores ++ [track_score] })

/-- EvergreenSelector.score_and_persist: score, gate, explain, then append a
new TrackScore row with the evergreen score, copying the trending score of
the most recent prior row when that row exists and its trending_score is
truthy (`if existing_score and existing_score.trending_score:`). -/
noncomputable def EvergreenSelector.score_and_persist (now : Int) (track : Track)
    (track_id : String) (db : Db) : Option TrackScore × Db :=
  let r := EvergreenScorer.calculate_score now track_id db.metrics
  if !r.2.2 then (none, db)
  else
    let explanation := ExplainabilityEngine.explain_evergreen now track track_id r.2.1 db.metrics
    let existing_score := latestScoreRow track_id db.scores
    let base : TrackScore :=
      { track_id := track_id, computed_at := now,
        trending_score := none, evergreen_score := some r.1,
        components := r.2.1.map (fun kv => (kv.1, pyRoundR kv.2 4)),
        why_selected := explanation.why_selected,
        risk_flags := explanation.risk_flags }
    let track_score :=
      match existing_score with
      | some prior =>
        if pyTruthyQ prior.trending_score then
          { base with trending_score := prior.trending_score }
        else base
      | none => base
    (some track_score, { db with scores := db.scores ++ [track_score] })

/-- One entry of the list returned by TrendingSelector.select_tracks. -/
structure TrendingResult where
  track_id : String
  title : String
  artist_name : String
  trending_score : ℚ
  components : List (String × ℚ)
  summary : String
  why_selected : List String
  risk_flags : List String
  first_discovered : Timestamp
deriving DecidableEq, Repr

/-- One entry of the list returned by EvergreenSelector.select_tracks. -/
structure EvergreenResult where
  track_id : String
  title : String
  artist_name : String
  evergreen_score : ℝ
  components : List (String × ℝ)
  summary : String
  why_selected : List String
  risk_flags : List String
  first_discovered : Timestamp

/-- The record the trending select_tracks loop appends for one track:
rounded score (2 digits), rounded components (3 digits), summary,
explanation lists. -/
def trendingResultRec (now : Int) (track : Track) (dbm : List TrackMetric) : TrendingResult :=
  let r := TrendingScorer.calculate_score now track.id dbm
  let explanation := ExplainabilityEngine.explain_trending now track track.id r.2.1 dbm
  let summary := ExplainabilityEngine.generate_summary track r.1 (0 : ℚ) "trending"
    explanation.why_selected explanation.risk_flags
  { track_id := track.id, title := track.title, artist_name := track.artist_name,
    trending_score := pyRound r.1 2,
    components := r.2.1.map (fun kv => (kv.1, pyRound kv.2 3)),
    summary := summary,
    why_selected := explanation.why_selected,
    risk_flags := explanation.risk_flags,
    first_discovered := track.first_discovered }

/-- The record the evergreen select_tracks loop appends for one track. -/
noncomputable def evergreenResultRec (now : Int) (track : Track) (dbm : List TrackMetric) :
    EvergreenResult :=
  let r := EvergreenScorer.calculate_score now track.id dbm
  let explanation := ExplainabilityEngine.explain_evergreen now track track.id r.2.1 dbm
  let summary := ExplainabilityEngine.generate_summary track (0 : ℝ) r.1 "evergreen"
    explanation.why_selected explanation.risk_flags
  { track_id := track.id, title := track.title, artist_name := track.artist_name,
    evergreen_score := pyRoundR r.1 2,
    components := r.2.1.map (fun kv => (kv.1, pyRoundR kv.2 3)),
    summary := summary,
    why_selected := explanation.why_selected,
    risk_flags := explanation.risk_flags,
    first_discovered := track.first_discovered }

/-- Stable descending insertion by key: an element passes every strictly
greater key and lands before the first key less than or equal to its own,
which preserves the original order of equal keys (the semantics of the
stable Python list.sort with reverse=True). -/
def insertDesc {α β : Type} [LinearOrder β] (key : α → β) (x : α) : List α → List α
  | [] => [x]
  | y :: ys => if key x < key y then y :: insertDesc key x ys else x :: y :: ys

/-- Stable descending sort by key. -/
def sortDesc {α β : Type} [LinearOrder β] (key : α → β) : List α → List α
  | [] => []
  | x :: xs => insertDesc key x (sortDesc key xs)

/-- TrendingSelector.select_tracks: score every track, keep those passing
the gate with raw score at least min_score, build the result records, sort
descending by the (rounded) trending_score entry and truncate to limit.
The platform and country parameters are accepted and ignored, as in the
source.  No TrackScore row is written: the store is returned unchanged. -/
def TrendingSelector.select_tracks (now : Int) (db : Db) (limit : Nat) (min_score : ℚ)
    (platform country : Option String) : List TrendingResult × Db :=
  let scored_tracks := db.tracks.filterMap (fun track =>
    let r := TrendingScorer.calculate_score now track.id db.metrics
    if !r.2.2 || decide (r.1 < min_score) then none
    else some (trendingResultRec now track db.metrics))
  ((sortDesc (fun x => x.trending_score) scored_tracks).take limit, db)

/-- EvergreenSelector.select_tracks: restrict to tracks first discovered at
least min_months * 30 days ago, then score, gate, filter by min_score,
build records, sort descending by the rounded evergreen_score and truncate
to limit.  No TrackScore row is written. -/
noncomputable def EvergreenSelector.select_tracks (now : Int) (db : Db) (limit : Nat)
    (min_score : ℝ) (min_months : Int) : List EvergreenResult × Db :=
  let min_age := now - min_months * 30
  let candidates := db.tracks.filter (fun t => decide (t.first_discovered.day ≤ min_age))
  let scored_tracks := candidates.filterMap (fun track =>
    let r := EvergreenScorer.calculate_score now track.id db.metrics
    if r.2.2 = false ∨ r.1 < min_score then none
    else some (evergreenResultRec now track db.metrics))
  ((sortDesc (fun x => x.evergreen_score) scored_tracks).take limit, db)

/-- The per-track loop body of run_discovery_batch, generic in the step so
that an unhandled exception inside score_and_persist (an infrastructure
failure; the embedded scoring itself is total) can be modelled as
Except.error: look the track up, skip silently when absent, count it as
processed, run the step, count a truthy returned row as scored.  On an
exception the store state reached so far (everything committed by earlier
successful steps) is carried out with the error. -/
def processLoop (step : Track → Db → Except String (Option TrackScore × Db)) :
    List String → Db → Nat → Nat → Except (String × Db) (Db × Nat × Nat)
  | [], db, processed, scored => Except.ok (db, processed, scored)
  | tid :: rest, db, processed, scored =>
    match db.tracks.find? (fun t => t.id == tid) with
    | none => processLoop step rest db processed scored
    | some track =>
      match step track db with
      | Except.error e => Except.error (e, db)
      | Except.ok (scoreOpt, db2) =>
        processLoop step rest db2 (processed + 1)
          (scored + if scoreOpt.isSome then 1 else 0)

/-- Replace the most recently appended discovery run row (the ORM object
mutated after the loop and committed). -/
def updateLastRun (db : Db) (run : DiscoveryRun) : Db :=
  { db with runs := db.runs.dropLast ++ [run] }

/-- run_discovery_batch, generic in run type and step: append and commit an
audit run with status running before any processing; on normal completion
overwrite it with status completed, completed_at and the two counters; on an
exception overwrite it with status failed and the error message only — the
counter fields and completed_at keep their defaults (0 and null), exactly as
in the source, whose except branch assigns only status and error_message.
First, the audit run row as initially committed, with its column defaults: -/
def initialRun (run_type : String) (now : Int) : DiscoveryRun :=
  { run_type := run_type, started_at := now, completed_at := none,
    tracks_processed := 0, tracks_new := 0, tracks_updated := 0,
    status := "running", error_message := none }

/-- The generic batch driver itself. -/
def runBatchGen (run_type : String) (now : Int)
    (step : Track → Db → Except String (Option TrackScore × Db))
    (track_ids : List String) (db : Db) : DiscoveryRun × Db :=
  let run := initialRun run_type now
  let db1 := { db with runs := db.runs ++ [run] }
  match processLoop step track_ids db1 0 0 with
  | Except.ok (db2, processed, scored) =>
    let run2 :=
      { run with
        completed_at := some now
        status := "completed"
        tracks_processed := (processed : Int)
        tracks_updated := (scored : Int) }
    (run2, updateLastRun db2 run2)
  | Except.error (e, db2) =>
    let run2 := { run with status := "failed", error_message := some e }
    (run2, updateLastRun db2 run2)

/-- TrendingSelector.run_discovery_batch: the generic batch instantiated
with the (total) trending score_and_persist step. -/
def TrendingSelector.run_discovery_batch (now : Int) (track_ids : List String) (db : Db) :
    DiscoveryRun × Db :=
  runBatchGen "trending" now
    (fun track db => Except.ok (TrendingSelector.score_and_persist now track track.id db))
    track_ids db

/-- EvergreenSelector.run_discovery_batch: the generic batch instantiated
with the (total) evergreen score_and_persist step. -/
noncomputable def EvergreenSelector.run_discovery_batch (now : Int) (track_ids : List String)
    (db : Db) : DiscoveryRun × Db :=
  runBatchGen "evergreen" now
    (fun track db => Except.ok (EvergreenSelector.score_and_persist now track track.id db))
    track_ids db

/-- Modelled from the spec: the threshold gate as the specification words
it — "if present, TikTok 7-day posts ≥ 50 and Spotify 7-day streams ≥
10,000 (checked only if the respective field is non-null)".  Used to compare
the spec reading (null skips the check) against the source gate (Python
truthiness: null or zero skips the check). -/
def specThresholdGate (now : Int) (track_id : String) (dbm : List TrackMetric) : Bool :=
  match recentRow now track_id dbm 7 with
  | none => false
  | some recent =>
    (match recent.tiktok_posts_7d with
     | some v => decide (50 ≤ v)
     | none => true) &&
    (match recent.spotify_streams_7d with
     | some v => decide (10000 ≤ v)
     | none => true) &&
    decide (7 ≤ TemporalFeatures.get_data_points_count now track_id dbm 30)

/-- TikTokFeatures.has_tiktok_momentum: recent row exists, its posts field
is truthy and at least the threshold. -/
def TikTokFeatures.has_tiktok_momentum (now : Int) (track_id : String)
    (dbm : List TrackMetric) (threshold_posts_7d : Int) : Bool :=
  match recentRow now track_id dbm 7 with
  | none => false
  | some recent =>
    if !pyTruthy recent.tiktok_posts_7d then false
    else decide (threshold_posts_7d ≤ optVal recent.tiktok_posts_7d)

/-- TemporalFeatures.calculate_recency_score: staircase freshness score of
the latest metric row (the returned steps 0.9, 0.5, 0.2 of the source,
which differ from its own comment). -/
def TemporalFeatures.calculate_recency_score (now : Int) (track_id : String)
    (dbm : List TrackMetric) : ℚ :=
  match latestMetricIn (fun m => m.track_id == track_id) dbm with
  | none => 0
  | some latest =>
    let days_old := now - latest.timestamp.day
    if days_old ≤ 1 then 1
    else if days_old ≤ 7 then 9/10
    else if days_old ≤ 30 then 1/2
    else if days_old ≤ 60 then 1/5
    else 0

/-- The trending score that EvergreenSelector.score_and_persist carries
forward onto the row it appends: the prior trending_score when the most
recent prior row exists and that column is truthy, null otherwise. -/
def carriedTrending (track_id : String) (scores : List TrackScore) : Option ℚ :=
  match latestScoreRow track_id scores with
  | some prior => if pyTruthyQ prior.trending_score then prior.trending_score else none
  | none => none

/-! Concrete data used by the counterexamples and witnesses. -/

/-- A timestamp on day d of month mo, 2025. -/
def mkTs (d mo : Int) : Timestamp := ⟨d, 2025, mo⟩

/-- A metric row with every nullable column null. -/
def baseM (tid : String) (d mo : Int) : TrackMetric :=
  { track_id := tid, timestamp := mkTs d mo, spotify_streams := none,
    spotify_streams_7d := none, spotify_playlist_count := none,
    spotify_chart_position := none, tiktok_posts_7d := none,
    tiktok_views_7d := none, tiktok_chart_position := none }

/-- History with a zero TikTok posts baseline and a positive recent value
(now = 100): recent row day 99 has 3 posts, baseline row day 80 has 0. -/
def msZeroBaseline : List TrackMetric :=
  [{ baseM "t" 99 4 with tiktok_posts_7d := some 3 },
   { baseM "t" 80 3 with tiktok_posts_7d := some 0 }]

/-- History where both platforms have zero baselines and positive recent
values (now = 100). -/
def msZeroBaselineBoth : List TrackMetric :=
  [{ baseM "t" 99 4 with tiktok_posts_7d := some 3, spotify_streams_7d := some 500 },
   { baseM "t" 80 3 with tiktok_posts_7d := some 0, spotify_streams_7d := some 0 }]

/-- History whose recent row carries a present TikTok posts value of 0
(non-null, below the 50 threshold) and which has 7 rows in the trailing 30
days (now = 100). -/
def msGate0 : List TrackMetric :=
  ({ baseM "t" 99 4 with tiktok_posts_7d := some 0 }) ::
  (List.range 6).map (fun i => baseM "t" (90 - (i : Int)) 3)

/-- History for the track "t": recent posts 60 (passing the 50 threshold),
baseline posts 10 (velocity 6), and five null filler rows so that 7 rows lie
in the trailing 30 days (now = 100). -/
def msT : List TrackMetric :=
  ({ baseM "t" 99 4 with tiktok_posts_7d := some 60 }) ::
  ({ baseM "t" 92 3 with tiktok_posts_7d := some 10 }) ::
  (List.range 5).map (fun i => baseM "t" (94 + (i : Int)) 4)

/-- History for the track "e": 90 daily rows on days 0, -1, ..., -89 with a
constant 6000 streams, spread over 12 calendar months, so that the evergreen
gate passes at now = 100 (90 points in 365 days, 12 active months, average
streams 6000). -/
def msEv : List TrackMetric :=
  (List.range 90).map (fun i =>
    { baseM "e" (-(i : Int)) ((i : Int) % 12 + 1) with spotify_streams := some 6000 })

/-- History with 30 constant positive stream rows (days 99 down to 70, all
180-window qualifying at now = 100). -/
def msConst : List TrackMetric :=
  (List.range 30).map (fun i =>
    { baseM "c" (99 - (i : Int)) 4 with spotify_streams := some 100 })

/-- The trending-side track. -/
def trkT : Track :=
  { id := "t", title := "T", artist_name := "A", first_discovered := mkTs 95 4 }

/-- The evergreen-side track, discovered long ago. -/
def trkE : Track :=
  { id := "e", title := "E", artist_name := "B", first_discovered := mkTs (-400) 1 }

/-- A prior persisted score row for "t" carrying an evergreen score of
72.5. -/
noncomputable def priorEvergreenRow : TrackScore :=
  { track_id := "t", computed_at := 50, trending_score := none,
    evergreen_score := some ((145 : ℝ) / 2), components := [],
    why_selected := [], risk_flags := [] }

/-- A prior persisted score row for "e" carrying a trending score of 55. -/
def priorTrendingRow : TrackScore :=
  { track_id := "e", computed_at := 50, trending_score := some 55,
    evergreen_score := none, components := [],
    why_selected := [], risk_flags := [] }

/-- Store for the carry-forward counterexample: "t" passes the trending
gate and its latest prior score row holds evergreen_score 72.5. -/
noncomputable def dbCarryT : Db :=
  { tracks := [trkT], metrics := msT, scores := [priorEvergreenRow], runs := [] }

/-- Store for the carry-forward witness: "e" passes the evergreen gate and
its latest prior score row holds trending_score 55. -/
def dbCarryE : Db :=
  { tracks := [trkE], metrics := msEv, scores := [priorTrendingRow], runs := [] }

/-- Store holding both tracks with their histories and no scores. -/
def dbBoth : Db :=
  { tracks := [trkT, trkE], metrics := msT ++ msEv, scores := [], runs := [] }

/-- A batch step that raises on track "e" and otherwise runs the real
trending score_and_persist: the modelled unhandled exception at the second
track of the batch. -/
def stepBoom (now : Int) : Track → Db → Except String (Option TrackScore × Db) :=
  fun track db =>
    if track.id == "e" then Except.error "boom"
    else Except.ok (TrendingSelector.score_and_persist now track track.id db)

/-- The honest trending batch step (never raises). -/
def stepOk (now : Int) : Track → Db → Except String (Option TrackScore × Db) :=
  fun track db => Except.ok (TrendingSelector.score_and_persist now track track.id db)

theorem pyTruthy_ne_zero {o : Option Int} (h : pyTruthy o = true) : optVal o ≠ 0 := by
  cases o with
  | none => simp [pyTruthy] at h
  | some v => simpa [pyTruthy, optVal] using h

theorem posts_velocity_rows_missing (now : Int) (track_id : String) (dbm : List TrackMetric)
    (h : recentRow now track_id dbm 7 = none ∨ baselineRow now track_id dbm 7 30 = none) :
    TikTokFeatures.calculate_posts_velocity now track_id dbm 7 30 = 0 := by
  unfold TikTokFeatures.calculate_posts_velocity
  rcases h with h | h <;> rw [h] <;> split <;> simp_all

theorem posts_velocity_not_truthy (now : Int) (track_id : String) (dbm : List TrackMetric)
    (r b : TrackMetric) (h1 : recentRow now track_id dbm 7 = some r)
    (h2 : baselineRow now track_id dbm 7 30 = some b)
    (h : pyTruthy r.tiktok_posts_7d = false ∨ pyTruthy b.tiktok_posts_7d = false) :
    TikTokFeatures.calculate_posts_velocity now track_id dbm 7 30 = 0 := by
  unfold TikTokFeatures.calculate_posts_velocity
  rw [h1, h2]
  rcases h with h | h <;> simp [h]

theorem posts_velocity_ratio (now : Int) (track_id : String) (dbm : List TrackMetric)
    (r b : TrackMetric) (h1 : recentRow now track_id dbm 7 = some r)
    (h2 : baselineRow now track_id dbm 7 30 = some b)
    (hr : pyTruthy r.tiktok_posts_7d = true) (hb : pyTruthy b.tiktok_posts_7d = true) :
    TikTokFeatures.calculate_posts_velocity now track_id dbm 7 30 =
      (optVal r.tiktok_posts_7d : ℚ) / (optVal b.tiktok_posts_7d : ℚ) := by
  unfold TikTokFeatures.calculate_posts_velocity
  rw [h1, h2]
  simp [hr, hb, pyTruthy_ne_zero hb]

theorem playlist_growth_rows_missing (now : Int) (track_id : String) (dbm : List TrackMetric)
    (h : recentRow now track_id dbm 7 = none ∨ baselineRow now track_id dbm 7 30 = none) :
    SpotifyFeatures.calculate_playlist_growth now track_id dbm 30 = 0 := by
  unfold SpotifyFeatures.calculate_playlist_growth
  rcases h with h | h <;> rw [h] <;> split <;> simp_all

theorem playlist_growth_not_truthy (now : Int) (track_id : String) (dbm : List TrackMetric)
    (r b : TrackMetric) (h1 : recentRow now track_id dbm 7 = some r)
    (h2 : baselineRow now track_id dbm 7 30 = some b)
    (h : pyTruthy r.spotify_playlist_count = false ∨ pyTruthy b.spotify_playlist_count = false) :
    SpotifyFeatures.calculate_playlist_growth now track_id dbm 30 = 0 := by
  unfold SpotifyFeatures.calculate_playlist_growth
  rw [h1, h2]
  rcases h with h | h <;> simp [h]

theorem playlist_growth_ratio (now : Int) (track_id : String) (dbm : List TrackMetric)
    (r b : TrackMetric) (h1 : recentRow now track_id dbm 7 = some r)
    (h2 : baselineRow now track_id dbm 7 30 = some b)
    (hr : pyTruthy r.spotify_playlist_count = true)
    (hb : pyTruthy b.spotify_playlist_count = true) :
    SpotifyFeatures.calculate_playlist_growth now track_id dbm 30 =
      (optVal r.spotify_playlist_count : ℚ) / (optVal b.spotify_playlist_count : ℚ) := by
  unfold SpotifyFeatures.calculate_playlist_growth
  rw [h1, h2]
  simp [hr, hb, pyTruthy_ne_zero hb]

theorem cross_platform_rows_missing (now : Int) (track_id : String) (dbm : List TrackMetric)
    (h : recentRow now track_id dbm 7 = none ∨ baselineRow now track_id dbm 7 30 = none) :
    TikTokFeatures.calculate_cross_platform_confirmation now track_id dbm = false := by
  unfold TikTokFeatures.calculate_cross_platform_confirmation
  rcases h with h | h <;> rw [h] <;> split <;> simp_all

theorem cross_platform_baseline_bad (now : Int) (track_id : String) (dbm : List TrackMetric)
    (r b : TrackMetric) (h1 : recentRow now track_id dbm 7 = some r)
    (h2 : baselineRow now track_id dbm 7 30 = some b)
    (h : b.tiktok_posts_7d = none ∨ b.tiktok_posts_7d = some 0 ∨
         b.spotify_streams_7d = none ∨ b.spotify_streams_7d = some 0) :
    TikTokFeatures.calculate_cross_platform_confirmation now track_id dbm = false := by
  unfold TikTokFeatures.calculate_cross_platform_confirmation
  rw [h1, h2]
  rcases h with h | h | h | h <;> simp [h, pyTruthy]

/-- C2, corrected.  The claim says a zero baseline with positive recent
value yields the fixed cap 10.0; in the source the Python truthiness guard
returns 0.0 before the cap branch can run (and the playlist-growth cap would
be 5.0 anyway), so zero or null values yield 0.  What holds: each velocity
extractor returns 0 when either snapshot row is absent; returns 0 when
either row's field value is null or zero (in particular in the zero-baseline
positive-recent case); and returns exactly recent/baseline when both values
are truthy (which forces B nonzero). -/
theorem velocity_edge_cases (now : Int) (track_id : String) (dbm : List TrackMetric) :
    ((recentRow now track_id dbm 7 = none ∨ baselineRow now track_id dbm 7 30 = none) →
      TikTokFeatures.calculate_posts_velocity now track_id dbm 7 30 = 0)
  ∧ (∀ r b, recentRow now track_id dbm 7 = some r →
      baselineRow now track_id dbm 7 30 = some b →
      (pyTruthy r.tiktok_posts_7d = false ∨ pyTruthy b.tiktok_posts_7d = false) →
      TikTokFeatures.calculate_posts_velocity now track_id dbm 7 30 = 0)
  ∧ (∀ r b, recentRow now track_id dbm 7 = some r →
      baselineRow now track_id dbm 7 30 = some b →
      pyTruthy r.tiktok_posts_7d = true → pyTruthy b.tiktok_posts_7d = true →
      TikTokFeatures.calculate_posts_velocity now track_id dbm 7 30 =
        (optVal r.tiktok_posts_7d : ℚ) / (optVal b.tiktok_posts_7d : ℚ))
  ∧ ((recentRow now track_id dbm 7 = none ∨ baselineRow now track_id dbm 7 30 = none) →
      SpotifyFeatures.calculate_playlist_growth now track_id dbm 30 = 0)
  ∧ (∀ r b, recentRow now track_id dbm 7 = some r →
      baselineRow now track_id dbm 7 30 = some b →
      (pyTruthy r.spotify_playlist_count = false ∨ pyTruthy b.spotify_playlist_count = false) →
      SpotifyFeatures.calculate_playlist_growth now track_id dbm 30 = 0)
  ∧ (∀ r b, recentRow now track_id dbm 7 = some r →
      baselineRow now track_id dbm 7 30 = some b →
      pyTruthy r.spotify_playlist_count = true → pyTruthy b.spotify_playlist_count = true →
      SpotifyFeatures.calculate_playlist_growth now track_id dbm 30 =
        (optVal r.spotify_playlist_count : ℚ) / (optVal b.spotify_playlist_count : ℚ)) :=
  ⟨posts_velocity_rows_missing now track_id dbm,
   fun r b h1 h2 h => posts_velocity_not_truthy now track_id dbm r b h1 h2 h,
   fun r b h1 h2 hr hb => posts_velocity_ratio now track_id dbm r b h1 h2 hr hb,
   playlist_growth_rows_missing now track_id dbm,
   fun r b h1 h2 h => playlist_growth_not_truthy now track_id dbm r b h1 h2 h,
   fun r b h1 h2 hr hb => playlist_growth_ratio now track_id dbm r b h1 h2 hr hb⟩

/-- C2 counterexample: at now = 100 the history msZeroBaseline has a
baseline row whose TikTok posts value is present and 0 and a recent row
with 3 posts, yet calculate_posts_velocity returns 0, not the cap 10
claimed. -/
theorem velocity_zero_baseline_counterexample :
    (baselineRow 100 "t" msZeroBaseline 7 30).map (fun b => b.tiktok_posts_7d) = some (some 0)
  ∧ (recentRow 100 "t" msZeroBaseline 7).map (fun r => r.tiktok_posts_7d) = some (some 3)
  ∧ TikTokFeatures.calculate_posts_velocity 100 "t" msZeroBaseline 7 30 = 0
  ∧ TikTokFeatures.calculate_posts_velocity 100 "t" msZeroBaseline 7 30 ≠ 10 := by decide

/-- C2 witness: the amended behaviour at concrete inputs — empty history
gives 0, the zero-baseline history gives 0, and the 60-over-10 history gives
exactly the ratio 6; likewise for playlist growth with a 20-over-4 pair. -/
theorem velocity_edge_cases_witness :
    TikTokFeatures.calculate_posts_velocity 100 "t" [] 7 30 = 0
  ∧ TikTokFeatures.calculate_posts_velocity 100 "t" msZeroBaseline 7 30 = 0
  ∧ TikTokFeatures.calculate_posts_velocity 100 "t" msT 7 30 = 6
  ∧ SpotifyFeatures.calculate_playlist_growth 100 "t" [] 30 = 0
  ∧ SpotifyFeatures.calculate_playlist_growth 100 "t"
      [{ baseM "t" 99 4 with spotify_playlist_count := some 20 },
       { baseM "t" 80 3 with spotify_playlist_count := some 4 }] 30 = 5 := by
  refine ⟨(velocity_edge_cases 100 "t" []).1 (Or.inl (by decide)),
    (velocity_edge_cases 100 "t" msZeroBaseline).2.1
      ({ baseM "t" 99 4 with tiktok_posts_7d := some 3 })
      ({ baseM "t" 80 3 with tiktok_posts_7d := some 0 })
      (by decide) (by decide) (Or.inr (by decide)),
    ?_, (velocity_edge_cases 100 "t" []).2.2.2.1 (Or.inl (by decide)), ?_⟩
  · have h := (velocity_edge_cases 100 "t" msT).2.2.1
      ({ baseM "t" 99 4 with tiktok_posts_7d := some 60 })
      ({ baseM "t" 92 3 with tiktok_posts_7d := some 10 })
      (by decide) (by decide) (by decide) (by decide)
    rw [h]; norm_num [optVal]
  · have h := (velocity_edge_cases 100 "t"
      [{ baseM "t" 99 4 with spotify_playlist_count := some 20 },
       { baseM "t" 80 3 with spotify_playlist_count := some 4 }]).2.2.2.2.2
      ({ baseM "t" 99 4 with spotify_playlist_count := some 20 })
      ({ baseM "t" 80 3 with spotify_playlist_count := some 4 })
      (by decide) (by decide) (by decide) (by decide)
    rw [h]; norm_num [optVal]

/-- C10, corrected.  The main statement holds: cross-platform confirmation
is False whenever either snapshot row is absent or either platform's
baseline value is null or zero, even with a positive recent value.  The
contrast clause of the claim is false: the velocity extractors do not treat
the zero-baseline situation as maximal growth — their truthiness guard also
returns 0 there. -/
theorem cross_platform_zero_baseline (now : Int) (track_id : String) (dbm : List TrackMetric) :
    ((recentRow now track_id dbm 7 = none ∨ baselineRow now track_id dbm 7 30 = none) →
      TikTokFeatures.calculate_cross_platform_confirmation now track_id dbm = false)
  ∧ (∀ r b, recentRow now track_id dbm 7 = some r →
      baselineRow now track_id dbm 7 30 = some b →
      (b.tiktok_posts_7d = none ∨ b.tiktok_posts_7d = some 0 ∨
       b.spotify_streams_7d = none ∨ b.spotify_streams_7d = some 0) →
      TikTokFeatures.calculate_cross_platform_confirmation now track_id dbm = false)
  ∧ (∀ r b, recentRow now track_id dbm 7 = some r →
      baselineRow now track_id dbm 7 30 = some b →
      (b.tiktok_posts_7d = none ∨ b.tiktok_posts_7d = some 0) →
      TikTokFeatures.calculate_posts_velocity now track_id dbm 7 30 = 0) :=
  ⟨cross_platform_rows_missing now track_id dbm,
   fun r b h1 h2 h => cross_platform_baseline_bad now track_id dbm r b h1 h2 h,
   fun r b h1 h2 h => posts_velocity_not_truthy now track_id dbm r b h1 h2
     (Or.inr (by rcases h with h | h <;> simp [h, pyTruthy]))⟩

/-- C10 counterexample: with zero baselines and positive recent values on
both platforms, cross-platform confirmation is indeed False, but the posts
velocity extractor returns 0 — not the maximal value 10 the claim says it
produces in the same situation. -/
theorem cross_platform_contrast_counterexample :
    TikTokFeatures.calculate_cross_platform_confirmation 100 "t" msZeroBaselineBoth = false
  ∧ TikTokFeatures.calculate_posts_velocity 100 "t" msZeroBaselineBoth 7 30 = 0
  ∧ TikTokFeatures.calculate_posts_velocity 100 "t" msZeroBaselineBoth 7 30 ≠ 10 := by decide

/-- C10 witness: the amended statement applied at msZeroBaselineBoth. -/
theorem cross_platform_zero_baseline_witness :
    TikTokFeatures.calculate_cross_platform_confirmation 100 "t" msZeroBaselineBoth = false
  ∧ TikTokFeatures.calculate_cross_platform_confirmation 100 "t" [] = false
  ∧ TikTokFeatures.calculate_posts_velocity 100 "t" msZeroBaselineBoth 7 30 = 0 := by
  refine ⟨(cross_platform_zero_baseline 100 "t" msZeroBaselineBoth).2.1
      ({ baseM "t" 99 4 with tiktok_posts_7d := some 3, spotify_streams_7d := some 500 })
      ({ baseM "t" 80 3 with tiktok_posts_7d := some 0, spotify_streams_7d := some 0 })
      (by decide) (by decide) (Or.inr (Or.inl (by decide))),
    (cross_platform_zero_baseline 100 "t" []).1 (Or.inl (by decide)),
    (cross_platform_zero_baseline 100 "t" msZeroBaselineBoth).2.2
      ({ baseM "t" 99 4 with tiktok_posts_7d := some 3, spotify_streams_7d := some 500 })
      ({ baseM "t" 80 3 with tiktok_posts_7d := some 0, spotify_streams_7d := some 0 })
      (by decide) (by decide) (Or.inr (by decide))⟩

theorem bool_gate_chain (c1 c2 c3 : Bool) :
    (if c1 then false else if c2 then false else if c3 then false else true) = true ↔
    c1 = false ∧ c2 = false ∧ c3 = false := by
  cases c1 <;> cases c2 <;> cases c3 <;> simp

/-- C3, corrected.  The claim reads the gate as skipping a platform check
only when the field is null; the source skips it whenever the field is not
truthy, so a present value of 0 (below either threshold) does not fail the
gate.  What holds: passes_threshold is true exactly when a snapshot exists
within the last 7 days, its TikTok 7-day posts field — when truthy
(non-null and nonzero) — is at least 50, its Spotify 7-day streams field —
when truthy — is at least 10,000, and at least 7 metric rows lie in the
trailing 30 days. -/
theorem check_thresholds_characterization (now : Int) (track_id : String)
    (dbm : List TrackMetric) :
    TrendingScorer.check_thresholds now track_id dbm = true ↔
    ∃ r, recentRow now track_id dbm 7 = some r ∧
      (pyTruthy r.tiktok_posts_7d = true → 50 ≤ optVal r.tiktok_posts_7d) ∧
      (pyTruthy r.spotify_streams_7d = true → 10000 ≤ optVal r.spotify_streams_7d) ∧
      7 ≤ TemporalFeatures.get_data_points_count now track_id dbm 30 := by
  unfold TrendingScorer.check_thresholds
  cases hr : recentRow now track_id dbm 7 with
  | none => simp
  | some r =>
    rw [bool_gate_chain]
    have hd1 : dictGet MIN_THRESHOLDS "trending_min_tiktok_posts_7d" 0 = 50 := rfl
    have hd2 : dictGet MIN_THRESHOLDS "trending_min_spotify_streams_7d" 0 = 10000 := rfl
    have hd3 : dictGet MIN_THRESHOLDS "trending_min_data_points" 0 = 7 := rfl
    rw [hd1, hd2, hd3]
    constructor
    · rintro ⟨h1, h2, h3⟩
      refine ⟨r, rfl, ?_, ?_, ?_⟩
      · intro ht
        rw [ht, Bool.true_and] at h1
        have := of_decide_eq_false h1
        omega
      · intro ht
        rw [ht, Bool.true_and] at h2
        have := of_decide_eq_false h2
        omega
      · have := of_decide_eq_false h3
        omega
    · rintro ⟨r', hr', hA, hB, hC⟩
      obtain rfl : r = r' := by injection hr'
      refine ⟨?_, ?_, ?_⟩
      · cases hpt : pyTruthy r.tiktok_posts_7d with
        | false => simp [hpt]
        | true =>
          have := hA hpt
          simp only [Bool.true_and, decide_eq_false_iff_not, not_lt]
          omega
      · cases hpt : pyTruthy r.spotify_streams_7d with
        | false => simp [hpt]
        | true =>
          have := hB hpt
          simp only [Bool.true_and, decide_eq_false_iff_not, not_lt]
          omega
      · simp only [decide_eq_false_iff_not, not_lt]
        omega

/-- C3 counterexample: msGate0's recent row carries a present TikTok posts
value of 0 — non-null and far below the 50 threshold — and only null Spotify
fields, with exactly 7 rows in the trailing 30 days; the source gate passes
while the gate as claimed (null-only skip) fails. -/
theorem threshold_gate_zero_field_counterexample :
    (recentRow 100 "t" msGate0 7).map (fun r => r.tiktok_posts_7d) = some (some 0)
  ∧ TemporalFeatures.get_data_points_count 100 "t" msGate0 30 = 7
  ∧ TrendingScorer.check_thresholds 100 "t" msGate0 = true
  ∧ specThresholdGate 100 "t" msGate0 = false := by decide

/-- C4, confirmed.  Any pair of weight tables whose sums are off by at
least 0.001 makes validate_weights raise (the module-load assert), so
process initialization fails before any score is computed; the shipped
tables pass. -/
theorem validate_weights_spec (tw ew : List (String × ℚ))
    (h : ¬(|(tw.map (fun kv => kv.2)).sum - 1| < 1/1000 ∧
           |(ew.map (fun kv => kv.2)).sum - 1| < 1/1000)) :
    (∃ e, validate_weights tw ew = Except.error e)
  ∧ validate_weights TRENDING_WEIGHTS EVERGREEN_WEIGHTS = Except.ok () := by
  constructor
  · unfold validate_weights
    by_cases h1 : |(tw.map (fun kv => kv.2)).sum - 1| < 1/1000
    · have h2 : ¬|(ew.map (fun kv => kv.2)).sum - 1| < 1/1000 := fun h2 => h ⟨h1, h2⟩
      exact ⟨_, by simp only [decide_eq_true h1, decide_eq_false h2]; rfl⟩
    · exact ⟨_, by simp only [decide_eq_false h1]; rfl⟩
  · norm_num [validate_weights, TRENDING_WEIGHTS, EVERGREEN_WEIGHTS]

/-- C4 witness: a table summing to 1/2 is rejected with an error, and the
shipped tables are accepted. -/
theorem validate_weights_spec_witness :
    ((∃ e, validate_weights [("bad", 1/2)] EVERGREEN_WEIGHTS = Except.error e)
  ∧ validate_weights TRENDING_WEIGHTS EVERGREEN_WEIGHTS = Except.ok ()) :=
  validate_weights_spec [("bad", 1/2)] EVERGREEN_WEIGHTS (by
    intro hcontra
    have := hcontra.1
    rw [abs_lt] at this
    norm_num at this)

theorem filter_eq_nil_of_no_rows {dbm : List TrackMetric} {track_id : String}
    (h : ∀ m ∈ dbm, m.track_id ≠ track_id) (p : TrackMetric → Bool)
    (hp : ∀ m, m.track_id ≠ track_id → p m = false) :
    dbm.filter p = [] :=
  List.filter_eq_nil_iff.2 (fun m hm => by simp [hp m (h m hm)])

theorem recentRow_none_of_no_rows {dbm : List TrackMetric} {track_id : String}
    (h : ∀ m ∈ dbm, m.track_id ≠ track_id) (now short : Int) :
    recentRow now track_id dbm short = none := by
  unfold recentRow latestMetricIn
  rw [filter_eq_nil_of_no_rows h _ (fun m hm => by simp [beq_false_of_ne hm])]
  rfl

theorem baselineRow_none_of_no_rows {dbm : List TrackMetric} {track_id : String}
    (h : ∀ m ∈ dbm, m.track_id ≠ track_id) (now short long : Int) :
    baselineRow now track_id dbm short long = none := by
  unfold baselineRow latestMetricIn
  rw [filter_eq_nil_of_no_rows h _ (fun m hm => by simp [beq_false_of_ne hm])]
  rfl

theorem data_points_zero_of_no_rows {dbm : List TrackMetric} {track_id : String}
    (h : ∀ m ∈ dbm, m.track_id ≠ track_id) (now lookback : Int) :
    TemporalFeatures.get_data_points_count now track_id dbm lookback = 0 := by
  unfold TemporalFeatures.get_data_points_count
  rw [filter_eq_nil_of_no_rows h _ (fun m hm => by simp [beq_false_of_ne hm])]
  rfl

/-- C5, confirmed.  On a track with zero metric rows every feature
extractor returns 0 (or False for the boolean ones) rather than raising —
totality is by construction in the embedding, and the zero values are
proved — and both scorers report passes_threshold = False. -/
theorem empty_history_totality (now : Int) (track_id : String) (dbm : List TrackMetric)
    (h : ∀ m ∈ dbm, m.track_id ≠ track_id) :
    TikTokFeatures.calculate_posts_velocity now track_id dbm 7 30 = 0
  ∧ TikTokFeatures.calculate_views_velocity now track_id dbm 7 30 = 0
  ∧ SpotifyFeatures.calculate_stream_growth now track_id dbm 7 30 = 0
  ∧ SpotifyFeatures.calculate_playlist_growth now track_id dbm 30 = 0
  ∧ SpotifyFeatures.calculate_stream_consistency now track_id dbm 180 = 0
  ∧ SpotifyFeatures.calculate_active_months_ratio now track_id dbm 365 = 0
  ∧ TemporalFeatures.calculate_recency_score now track_id dbm = 0
  ∧ TemporalFeatures.get_data_points_count now track_id dbm 30 = 0
  ∧ TikTokFeatures.calculate_cross_platform_confirmation now track_id dbm = false
  ∧ TikTokFeatures.has_tiktok_momentum now track_id dbm 100 = false
  ∧ TikTokFeatures.has_chart_entry now track_id dbm 30 = false
  ∧ SpotifyFeatures.has_chart_presence now track_id dbm 30 = false
  ∧ (TrendingScorer.calculate_score now track_id dbm).2.2 = false
  ∧ (EvergreenScorer.calculate_score now track_id dbm).2.2 = false := by
  have hrec : ∀ s, recentRow now track_id dbm s = none :=
    fun s => recentRow_none_of_no_rows h now s
  refine ⟨?_, ?_, ?_, ?_, ?_, ?_, ?_, ?_, ?_, ?_, ?_, ?_, ?_, ?_⟩
  · exact posts_velocity_rows_missing now track_id dbm (Or.inl (hrec 7))
  · unfold TikTokFeatures.calculate_views_velocity
    rw [hrec 7]
  · unfold SpotifyFeatures.calculate_stream_growth
    rw [hrec 7]
  · exact playlist_growth_rows_missing now track_id dbm (Or.inl (hrec 7))
  · unfold SpotifyFeatures.calculate_stream_consistency consistencyQualifying
    rw [filter_eq_nil_of_no_rows h _ (fun m hm => by simp [beq_false_of_ne hm])]
    norm_num
  · unfold SpotifyFeatures.calculate_active_months_ratio
    rw [filter_eq_nil_of_no_rows h _ (fun m hm => by simp [beq_false_of_ne hm])]
    rfl
  · unfold TemporalFeatures.calculate_recency_score latestMetricIn
    rw [filter_eq_nil_of_no_rows h _ (fun m hm => by simp [beq_false_of_ne hm])]
    rfl
  · exact data_points_zero_of_no_rows h now 30
  · exact cross_platform_rows_missing now track_id dbm (Or.inl (hrec 7))
  · unfold TikTokFeatures.has_tiktok_momentum
    rw [hrec 7]
  · unfold TikTokFeatures.has_chart_entry
    rw [List.any_eq_false]
    intro m hm
    simp [beq_false_of_ne (h m hm)]
  · unfold SpotifyFeatures.has_chart_presence
    rw [List.any_eq_false]
    intro m hm
    simp [beq_false_of_ne (h m hm)]
  · show TrendingScorer.check_thresholds now track_id dbm = false
    unfold TrendingScorer.check_thresholds
    rw [hrec 7]
  · show EvergreenScorer.check_thresholds now track_id dbm = false
    unfold EvergreenScorer.check_thresholds
    rw [data_points_zero_of_no_rows h now 365]
    with_unfolding_all rfl

/-- C5 witness: the totality statement applied to the empty store and to a
store that only holds rows of a different track. -/
theorem empty_history_totality_witness :
    (TrendingScorer.calculate_score 100 "t" []).2.2 = false
  ∧ SpotifyFeatures.calculate_stream_consistency 100 "t" [] 180 = 0
  ∧ TikTokFeatures.calculate_posts_velocity 100 "t" [] 7 30 = 0
  ∧ (EvergreenScorer.calculate_score 100 "t" msEv).2.2 = false
  ∧ SpotifyFeatures.calculate_active_months_ratio 100 "t" msEv 365 = 0 := by
  have h1 := empty_history_totality 100 "t" [] (by simp)
  have h2 := empty_history_totality 100 "t" msEv (by decide)
  exact ⟨h1.2.2.2.2.2.2.2.2.2.2.2.2.1, h1.2.2.2.2.1, h1.1,
    h2.2.2.2.2.2.2.2.2.2.2.2.2.2, h2.2.2.2.2.2.1⟩

theorem normalize_velocity_bounds (v : ℚ) :
    0 ≤ TrendingScorer.normalize_velocity v ∧ TrendingScorer.normalize_velocity v ≤ 1 := by
  unfold TrendingScorer.normalize_velocity
  have h1 : dictGet NORMALIZATION "min_velocity" 0 = 1 := rfl
  have h2 : dictGet NORMALIZATION "max_velocity" 0 = 10 := rfl
  rw [h1, h2]
  dsimp only
  split
  · norm_num
  · split
    · norm_num
    · rename_i hv1 hv2
      push_neg at hv1 hv2
      constructor
      · apply div_nonneg <;> linarith
      · rw [div_le_one (by norm_num)]
        linarith

theorem trending_total_eq (now : Int) (track_id : String) (dbm : List TrackMetric) :
    (TrendingScorer.calculate_score now track_id dbm).1 =
      100 * ((30/100) * TrendingScorer.normalize_velocity
          (TikTokFeatures.calculate_posts_velocity now track_id dbm 7 30)
        + (20/100) * TrendingScorer.normalize_velocity
          (TikTokFeatures.calculate_views_velocity now track_id dbm 7 30)
        + (20/100) * TrendingScorer.normalize_velocity
          (SpotifyFeatures.calculate_stream_growth now track_id dbm 7 30)
        + (15/100) * TrendingScorer.normalize_velocity
          (SpotifyFeatures.calculate_playlist_growth now track_id dbm 30)
        + (10/100) * (if TikTokFeatures.calculate_cross_platform_confirmation now track_id dbm
            then 1 else 0)
        + (5/100) * (if (TikTokFeatures.has_chart_entry now track_id dbm 30 ||
              SpotifyFeatures.has_chart_presence now track_id dbm 30) then 1 else 0)) := by
  unfold TrendingScorer.calculate_score
  simp [TRENDING_WEIGHTS, dictGet]
  ring

theorem components_cross_eq (now : Int) (track_id : String) (dbm : List TrackMetric) :
    dictGet (TrendingScorer.calculate_score now track_id dbm).2.1 "cross_platform_boost" 0 =
      (if TikTokFeatures.calculate_cross_platform_confirmation now track_id dbm
        then (1 : ℚ) else 0) := by
  unfold TrendingScorer.calculate_score
  simp [dictGet]

theorem components_chart_eq (now : Int) (track_id : String) (dbm : List TrackMetric) :
    dictGet (TrendingScorer.calculate_score now track_id dbm).2.1 "chart_entry_bonus" 0 =
      (if (TikTokFeatures.has_chart_entry now track_id dbm 30 ||
           SpotifyFeatures.has_chart_presence now track_id dbm 30) then (1 : ℚ) else 0) := by
  unfold TrendingScorer.calculate_score
  simp [dictGet]

theorem trending_total_bounds (now : Int) (track_id : String) (dbm : List TrackMetric) :
    0 ≤ (TrendingScorer.calculate_score now track_id dbm).1
  ∧ (TrendingScorer.calculate_score now track_id dbm).1 ≤ 100 := by
  rw [trending_total_eq]
  obtain ⟨a0, a1⟩ := normalize_velocity_bounds
    (TikTokFeatures.calculate_posts_velocity now track_id dbm 7 30)
  obtain ⟨b0, b1⟩ := normalize_velocity_bounds
    (TikTokFeatures.calculate_views_velocity now track_id dbm 7 30)
  obtain ⟨c0, c1⟩ := normalize_velocity_bounds
    (SpotifyFeatures.calculate_stream_growth now track_id dbm 7 30)
  obtain ⟨d0, d1⟩ := normalize_velocity_bounds
    (SpotifyFeatures.calculate_playlist_growth now track_id dbm 30)
  have e01 : (0:ℚ) ≤ (if TikTokFeatures.calculate_cross_platform_confirmation now track_id dbm
      then 1 else 0) ∧
      (if TikTokFeatures.calculate_cross_platform_confirmation now track_id dbm
      then (1:ℚ) else 0) ≤ 1 := by split <;> norm_num
  have f01 : (0:ℚ) ≤ (if (TikTokFeatures.has_chart_entry now track_id dbm 30 ||
        SpotifyFeatures.has_chart_presence now track_id dbm 30) then 1 else 0) ∧
      (if (TikTokFeatures.has_chart_entry now track_id dbm 30 ||
        SpotifyFeatures.has_chart_presence now track_id dbm 30) then (1:ℚ) else 0) ≤ 1 := by
    split <;> norm_num
  obtain ⟨e0, e1⟩ := e01
  obtain ⟨f0, f1⟩ := f01
  constructor <;> linarith

/-- C7, confirmed.  Velocity components are normalized by the linear map
sending ratios at most 1 to 0, ratios at least 10 to 1, and interpolating
(v - 1)/(10 - 1) between; boolean components are exactly 0 or 1; the total
is 100 times the weighted sum of the six components with the shipped
weights 0.30, 0.20, 0.20, 0.15, 0.10, 0.05, and therefore always lies in
[0, 100]. -/
theorem trending_score_formula (now : Int) (track_id : String) (dbm : List TrackMetric)
    (v : ℚ) :
    (v ≤ 1 → TrendingScorer.normalize_velocity v = 0)
  ∧ (10 ≤ v → TrendingScorer.normalize_velocity v = 1)
  ∧ (1 < v → v < 10 → TrendingScorer.normalize_velocity v = (v - 1) / (10 - 1))
  ∧ (dictGet (TrendingScorer.calculate_score now track_id dbm).2.1 "cross_platform_boost" 0 = 0
     ∨ dictGet (TrendingScorer.calculate_score now track_id dbm).2.1 "cross_platform_boost" 0 = 1)
  ∧ (dictGet (TrendingScorer.calculate_score now track_id dbm).2.1 "chart_entry_bonus" 0 = 0
     ∨ dictGet (TrendingScorer.calculate_score now track_id dbm).2.1 "chart_entry_bonus" 0 = 1)
  ∧ (TrendingScorer.calculate_score now track_id dbm).1 =
      100 * ((30/100) * TrendingScorer.normalize_velocity
          (TikTokFeatures.calculate_posts_velocity now track_id dbm 7 30)
        + (20/100) * TrendingScorer.normalize_velocity
          (TikTokFeatures.calculate_views_velocity now track_id dbm 7 30)
        + (20/100) * TrendingScorer.normalize_velocity
          (SpotifyFeatures.calculate_stream_growth now track_id dbm 7 30)
        + (15/100) * TrendingScorer.normalize_velocity
          (SpotifyFeatures.calculate_playlist_growth now track_id dbm 30)
        + (10/100) * (if TikTokFeatures.calculate_cross_platform_confirmation now track_id dbm
            then 1 else 0)
        + (5/100) * (if (TikTokFeatures.has_chart_entry now track_id dbm 30 ||
              SpotifyFeatures.has_chart_presence now track_id dbm 30) then 1 else 0))
  ∧ 0 ≤ (TrendingScorer.calculate_score now track_id dbm).1
  ∧ (TrendingScorer.calculate_score now track_id dbm).1 ≤ 100 := by
  refine ⟨?_, ?_, ?_, ?_, ?_, trending_total_eq now track_id dbm,
    (trending_total_bounds now track_id dbm).1, (trending_total_bounds now track_id dbm).2⟩
  · intro hv
    unfold TrendingScorer.normalize_velocity
    have h1 : dictGet NORMALIZATION "min_velocity" 0 = 1 := rfl
    rw [h1]
    simp [hv]
  · intro hv
    unfold TrendingScorer.normalize_velocity
    have h1 : dictGet NORMALIZATION "min_velocity" 0 = 1 := rfl
    have h2 : dictGet NORMALIZATION "max_velocity" 0 = 10 := rfl
    rw [h1, h2]
    dsimp only
    rw [if_neg (by linarith), if_pos (by linarith)]
  · intro hv1 hv2
    unfold TrendingScorer.normalize_velocity
    have h1 : dictGet NORMALIZATION "min_velocity" 0 = 1 := rfl
    have h2 : dictGet NORMALIZATION "max_velocity" 0 = 10 := rfl
    rw [h1, h2]
    dsimp only
    rw [if_neg (by linarith), if_neg (by linarith)]
  · rw [components_cross_eq]
    split
    · right; rfl
    · left; rfl
  · rw [components_chart_eq]
    split
    · right; rfl
    · left; rfl

/-- C7 witness: the normalization characterization at ratios 1/2, 20 and 4,
and the full formula evaluated on the msT history, whose only nonzero
component is a posts velocity of 6 (normalized (6-1)/9), giving a total of
100 x 0.30 x 5/9 = 50/3, inside [0, 100]. -/
theorem trending_score_formula_witness :
    TrendingScorer.normalize_velocity (1/2) = 0
  ∧ TrendingScorer.normalize_velocity 20 = 1
  ∧ TrendingScorer.normalize_velocity 4 = 1/3
  ∧ (TrendingScorer.calculate_score 100 "t" msT).1 = 50/3
  ∧ 0 ≤ (TrendingScorer.calculate_score 100 "t" msT).1
  ∧ (TrendingScorer.calculate_score 100 "t" msT).1 ≤ 100 := by
  obtain ⟨p1, p2, p3, _, _, _, p7, p8⟩ := trending_score_formula 100 "t" msT (1/2)
  refine ⟨p1 (by norm_num), (trending_score_formula 100 "t" msT 20).2.1 (by norm_num), ?_, ?_,
    p7, p8⟩
  · have h := (trending_score_formula 100 "t" msT 4).2.2.1 (by norm_num) (by norm_num)
    rw [h]; norm_num
  · have h := (trending_score_formula 100 "t" msT 0).2.2.2.2.2.1
    rw [h]
    with_unfolding_all rfl

/-- C1, corrected.  TrendingSelector.score_and_persist constructs its
TrackScore without an evergreen_score argument, so every row it persists
has a null evergreen_score: the trending pass does NOT carry the sibling
evergreen score forward.  Only EvergreenSelector.score_and_persist carries
the sibling score: the row it persists holds the most recent prior row's
trending_score exactly when such a row exists and that column is truthy
(non-null and nonzero), and null otherwise. -/
theorem score_and_persist_carry (now : Int) (track : Track) (track_id : String) (db : Db) :
    ((TrendingSelector.score_and_persist now track track_id db).1.map
        (fun ts => ts.evergreen_score)).getD none = none
  ∧ ((EvergreenSelector.score_and_persist now track track_id db).1.isSome = true →
      (EvergreenSelector.score_and_persist now track track_id db).1.map
        (fun ts => ts.trending_score) = some (carriedTrending track_id db.scores)) := by
  constructor
  · unfold TrendingSelector.score_and_persist
    dsimp only
    split
    · rfl
    · rfl
  · intro hs
    unfold EvergreenSelector.score_and_persist at hs ⊢
    dsimp only at hs ⊢
    by_cases hpass : (!(EvergreenScorer.calculate_score now track_id db.metrics).2.2) = true
    · rw [if_pos hpass] at hs
      exact absurd hs (by simp)
    · rw [if_neg hpass]
      rw [Option.map_some']
      refine congrArg some ?_
      unfold carriedTrending
      cases hprior : latestScoreRow track_id db.scores with
      | none => rfl
      | some prior =>
        dsimp only
        by_cases ht : pyTruthyQ prior.trending_score = true
        · rw [if_pos ht, if_pos ht]
        · rw [if_neg ht, if_neg ht]

set_option maxRecDepth 100000 in
/-- C1 counterexample: the latest prior score row of track "t" carries
evergreen_score 72.5 and the trending score_and_persist run succeeds, yet
the newly persisted row's evergreen_score is null, not 72.5. -/
theorem trending_persist_no_carry_counterexample :
    (latestScoreRow "t" dbCarryT.scores).map (fun s => s.evergreen_score) =
      some (some ((145 : ℝ) / 2))
  ∧ (TrendingSelector.score_and_persist 100 trkT "t" dbCarryT).1.isSome = true
  ∧ ((TrendingSelector.score_and_persist 100 trkT "t" dbCarryT).1.map
      (fun ts => ts.evergreen_score)) ≠ some (some ((145 : ℝ) / 2)) := by
  refine ⟨by with_unfolding_all rfl, by with_unfolding_all rfl, ?_⟩
  have h : ((TrendingSelector.score_and_persist 100 trkT "t" dbCarryT).1.map
      (fun ts => ts.evergreen_score)) = some none := by with_unfolding_all rfl
  rw [h]
  simp

set_option maxRecDepth 100000 in
/-- C1 witness: the evergreen score_and_persist run over dbCarryE succeeds
(90 qualifying rows) and its persisted row carries the prior trending score
55 forward, while the trending run over dbCarryT persists a null
evergreen_score. -/
theorem score_and_persist_carry_witness :
    (EvergreenSelector.score_and_persist 100 trkE "e" dbCarryE).1.map
      (fun ts => ts.trending_score) = some (some 55)
  ∧ ((TrendingSelector.score_and_persist 100 trkT "t" dbCarryT).1.map
      (fun ts => ts.evergreen_score)).getD none = none := by
  constructor
  · have hs : (EvergreenSelector.score_and_persist 100 trkE "e" dbCarryE).1.isSome = true := by
      with_unfolding_all rfl
    have h := (score_and_persist_carry 100 trkE "e" dbCarryE).2 hs
    rw [h]
    with_unfolding_all rfl
  · exact (score_and_persist_carry 100 trkT "t" dbCarryT).1

/-- C6, corrected.  The audit run is appended (committed) with status
running before the loop touches any track.  On normal completion the run is
overwritten with status completed, completed_at and both counters.  On an
unhandled exception the run holds status failed and the error message, and
the store keeps every score committed before the failure — but, contrary to
the claim, tracks_processed (and tracks_updated) keep the column default 0:
the except branch of the source assigns only status and error_message. -/
theorem run_discovery_batch_spec (run_type : String) (now : Int)
    (step : Track → Db → Except String (Option TrackScore × Db))
    (track_ids : List String) (db : Db) :
    (initialRun run_type now).status = "running"
  ∧ (∀ e db2,
      processLoop step track_ids { db with runs := db.runs ++ [initialRun run_type now] } 0 0 =
        Except.error (e, db2) →
      (runBatchGen run_type now step track_ids db).1.status = "failed"
      ∧ (runBatchGen run_type now step track_ids db).1.error_message = some e
      ∧ (runBatchGen run_type now step track_ids db).1.tracks_processed = 0
      ∧ (runBatchGen run_type now step track_ids db).1.tracks_updated = 0
      ∧ (runBatchGen run_type now step track_ids db).1.completed_at = none
      ∧ (runBatchGen run_type now step track_ids db).2.scores = db2.scores)
  ∧ (∀ db2 p s,
      processLoop step track_ids { db with runs := db.runs ++ [initialRun run_type now] } 0 0 =
        Except.ok (db2, p, s) →
      (runBatchGen run_type now step track_ids db).1.status = "completed"
      ∧ (runBatchGen run_type now step track_ids db).1.error_message = none
      ∧ (runBatchGen run_type now step track_ids db).1.tracks_processed = (p : Int)
      ∧ (runBatchGen run_type now step track_ids db).1.tracks_updated = (s : Int)
      ∧ (runBatchGen run_type now step track_ids db).1.completed_at = some now
      ∧ (runBatchGen run_type now step track_ids db).2.scores = db2.scores) := by
  refine ⟨rfl, ?_, ?_⟩
  · intro e db2 h
    unfold runBatchGen
    dsimp only
    rw [h]
    exact ⟨rfl, rfl, rfl, rfl, rfl, rfl⟩
  · intro db2 p s h
    unfold runBatchGen
    dsimp only
    rw [h]
    exact ⟨rfl, rfl, rfl, rfl, rfl, rfl⟩

set_option maxRecDepth 100000 in
/-- C6 counterexample: a batch over the ids t and e where the step raises
on e after the real trending score_and_persist committed a score for t.
The run ends failed with the captured message and the earlier committed
score row is preserved, but tracks_processed is 0 — not the 2 attempted
tracks the claim requires. -/
theorem batch_failure_counts_counterexample :
    (runBatchGen "trending" 100 (stepBoom 100) ["t", "e"] dbBoth).1.status = "failed"
  ∧ (runBatchGen "trending" 100 (stepBoom 100) ["t", "e"] dbBoth).1.error_message = some "boom"
  ∧ (runBatchGen "trending" 100 (stepBoom 100) ["t", "e"] dbBoth).2.scores.length = 1
  ∧ (runBatchGen "trending" 100 (stepBoom 100) ["t", "e"] dbBoth).1.completed_at = none
  ∧ (runBatchGen "trending" 100 (stepBoom 100) ["t", "e"] dbBoth).1.tracks_processed = 0
  ∧ (runBatchGen "trending" 100 (stepBoom 100) ["t", "e"] dbBoth).1.tracks_processed ≠ 2 := by
  refine ⟨by with_unfolding_all rfl, by with_unfolding_all rfl, by with_unfolding_all rfl,
    by with_unfolding_all rfl, by with_unfolding_all rfl, ?_⟩
  have h : (runBatchGen "trending" 100 (stepBoom 100) ["t", "e"] dbBoth).1.tracks_processed = 0 :=
    by with_unfolding_all rfl
  rw [h]
  decide

set_option maxRecDepth 100000 in
/-- C6 witness: the batch specification applied to a completing run over
the single id t (one processed, one scored) and to the failing stepBoom run
(failed status, message boom, counters left at 0). -/
theorem run_discovery_batch_spec_witness :
    (runBatchGen "trending" 100 (stepOk 100) ["t"] dbBoth).1.status = "completed"
  ∧ (runBatchGen "trending" 100 (stepOk 100) ["t"] dbBoth).1.tracks_processed = 1
  ∧ (runBatchGen "trending" 100 (stepOk 100) ["t"] dbBoth).1.tracks_updated = 1
  ∧ (runBatchGen "trending" 100 (stepBoom 100) ["t", "e"] dbBoth).1.status = "failed"
  ∧ (runBatchGen "trending" 100 (stepBoom 100) ["t", "e"] dbBoth).1.error_message = some "boom"
  ∧ (runBatchGen "trending" 100 (stepBoom 100) ["t", "e"] dbBoth).1.tracks_processed = 0 := by
  obtain ⟨db2, hok⟩ : ∃ db2, processLoop (stepOk 100) ["t"]
      { dbBoth with runs := dbBoth.runs ++ [initialRun "trending" 100] } 0 0 =
      Except.ok (db2, 1, 1) := ⟨_, by with_unfolding_all rfl⟩
  obtain ⟨db3, herr⟩ : ∃ db3, processLoop (stepBoom 100) ["t", "e"]
      { dbBoth with runs := dbBoth.runs ++ [initialRun "trending" 100] } 0 0 =
      Except.error ("boom", db3) := ⟨_, by with_unfolding_all rfl⟩
  have h1 := (run_discovery_batch_spec "trending" 100 (stepOk 100) ["t"] dbBoth).2.2 db2 1 1 hok
  have h2 := (run_discovery_batch_spec "trending" 100 (stepBoom 100) ["t", "e"] dbBoth).2.1
    "boom" db3 herr
  exact ⟨h1.1, by simpa using h1.2.2.1, by simpa using h1.2.2.2.1, h2.1, h2.2.1, h2.2.2.1⟩

theorem consistencyStreams_mem_ne_zero {metrics : List TrackMetric} {v : Int}
    (hv : v ∈ consistencyStreams metrics) : v ≠ 0 := by
  unfold consistencyStreams at hv
  rw [List.mem_filterMap] at hv
  obtain ⟨m, hm, hf⟩ := hv
  cases hs : m.spotify_streams with
  | none => rw [hs] at hf; cases hf
  | some w =>
    rw [hs] at hf
    dsimp only at hf
    by_cases hw : w ≠ 0
    · rw [if_pos hw] at hf
      injection hf with hf
      subst hf
      exact hw
    · rw [if_neg hw] at hf
      cases hf

theorem consistency_eval (now : Int) (track_id : String) (dbm : List TrackMetric)
    (h30 : ¬((consistencyQualifying now track_id dbm 180).length < 30))
    (hne : consistencyStreams (consistencyQualifying now track_id dbm 180) ≠ []) :
    SpotifyFeatures.calculate_stream_consistency now track_id dbm 180 =
      (if streamMean (consistencyStreams (consistencyQualifying now track_id dbm 180)) = 0
       then 0
       else min 1 (max 0 (1 -
         streamStd (consistencyStreams (consistencyQualifying now track_id dbm 180)) /
         streamMean (consistencyStreams (consistencyQualifying now track_id dbm 180))))) := by
  unfold SpotifyFeatures.calculate_stream_consistency
  dsimp only
  rw [if_neg h30]
  have hA : (consistencyStreams (consistencyQualifying now track_id dbm 180)).isEmpty = false := by
    rcases hq : consistencyStreams (consistencyQualifying now track_id dbm 180) with _ | ⟨a, l⟩
    · exact absurd hq hne
    · rfl
  have hB : ((consistencyStreams (consistencyQualifying now track_id dbm 180)).max? ==
      some 0) = false := by
    cases hmax : (consistencyStreams (consistencyQualifying now track_id dbm 180)).max? with
    | none => rfl
    | some m =>
      have hm := List.max?_mem (fun _ _ => max_choice _ _) hmax
      have hm0 := consistencyStreams_mem_ne_zero hm
      simp [hm0]
  rw [hA, hB]
  simp

/-- C8, confirmed.  With fewer than 30 qualifying (non-null within the
lookback window) observations the consistency is 0 regardless of variance;
with at least 30 observations all carrying the same positive stream value it
is exactly 1 (population std 0, mean positive); and in general, whenever at
least 30 observations qualify and the truthy value list is nonempty, it
equals max(0, 1 - std/mean) clamped to 1, and 0 when the mean is 0. -/
theorem stream_consistency_spec (now : Int) (track_id : String) (dbm : List TrackMetric)
    (c : Int) :
    ((consistencyQualifying now track_id dbm 180).length < 30 →
      SpotifyFeatures.calculate_stream_consistency now track_id dbm 180 = 0)
  ∧ (30 ≤ (consistencyQualifying now track_id dbm 180).length →
     (∀ m ∈ consistencyQualifying now track_id dbm 180, m.spotify_streams = some c) →
     0 < c →
      SpotifyFeatures.calculate_stream_consistency now track_id dbm 180 = 1)
  ∧ (30 ≤ (consistencyQualifying now track_id dbm 180).length →
     consistencyStreams (consistencyQualifying now track_id dbm 180) ≠ [] →
      SpotifyFeatures.calculate_stream_consistency now track_id dbm 180 =
      (if streamMean (consistencyStreams (consistencyQualifying now track_id dbm 180)) = 0
       then 0
       else min 1 (max 0 (1 -
         streamStd (consistencyStreams (consistencyQualifying now track_id dbm 180)) /
         streamMean (consistencyStreams (consistencyQualifying now track_id dbm 180)))))) := by
  refine ⟨?_, ?_, fun h30 hne => consistency_eval now track_id dbm (not_lt.2 h30) hne⟩
  · intro h30
    unfold SpotifyFeatures.calculate_stream_consistency
    dsimp only
    rw [if_pos h30]
  · intro h30 hc hcpos
    have hfg : ∀ m ∈ consistencyQualifying now track_id dbm 180,
        (fun m => match m.spotify_streams with
          | some v => if v ≠ 0 then some v else none
          | none => none) m = (fun _ : TrackMetric => some c) m := by
      intro m hm
      dsimp only
      rw [hc m hm]
      simp [ne_of_gt hcpos]
    have hS : consistencyStreams (consistencyQualifying now track_id dbm 180) =
        List.replicate (consistencyQualifying now track_id dbm 180).length c := by
      unfold consistencyStreams
      rw [List.filterMap_congr hfg]
      rw [show (consistencyQualifying now track_id dbm 180).filterMap (fun _ => some c) =
        (consistencyQualifying now track_id dbm 180).map (fun _ => c) from
        List.filterMap_eq_map (fun _ => c) ▸ rfl]
      exact List.map_const' _ c
    have hlen : (consistencyStreams (consistencyQualifying now track_id dbm 180)).length =
        (consistencyQualifying now track_id dbm 180).length := by
      rw [hS, List.length_replicate]
    have hne : consistencyStreams (consistencyQualifying now track_id dbm 180) ≠ [] := by
      intro hnil
      rw [hnil] at hlen
      simp at hlen
      omega
    have hn : ((consistencyQualifying now track_id dbm 180).length : ℝ) ≠ 0 := by
      have : 0 < (consistencyQualifying now track_id dbm 180).length := by omega
      exact_mod_cast Nat.pos_iff_ne_zero.1 this
    have hmean : streamMean (consistencyStreams (consistencyQualifying now track_id dbm 180)) =
        (c : ℝ) := by
      unfold streamMean
      rw [hS, List.sum_replicate, List.length_replicate, nsmul_eq_mul]
      push_cast
      field_simp
    have hstd : streamStd (consistencyStreams (consistencyQualifying now track_id dbm 180)) =
        0 := by
      unfold streamStd
      rw [hmean, hS, List.map_replicate]
      simp
    rw [consistency_eval now track_id dbm (not_lt.2 h30) hne]
    have hc0 : (c : ℝ) ≠ 0 := by
      exact_mod_cast ne_of_gt hcpos
    rw [if_neg (by rw [hmean]; exact hc0), hstd, hmean]
    norm_num

set_option maxRecDepth 100000 in
/-- C8 witness: the empty store has 0 qualifying rows, giving consistency 0;
msConst has 30 qualifying rows all with stream value 100, giving exactly 1;
and on msConst the general formula applies with a nonzero mean. -/
theorem stream_consistency_spec_witness :
    SpotifyFeatures.calculate_stream_consistency 100 "c" [] 180 = 0
  ∧ SpotifyFeatures.calculate_stream_consistency 100 "c" msConst 180 = 1
  ∧ SpotifyFeatures.calculate_stream_consistency 100 "c" msConst 180 =
      (if streamMean (consistencyStreams (consistencyQualifying 100 "c" msConst 180)) = 0
       then 0
       else min 1 (max 0 (1 -
         streamStd (consistencyStreams (consistencyQualifying 100 "c" msConst 180)) /
         streamMean (consistencyStreams (consistencyQualifying 100 "c" msConst 180))))) := by
  refine ⟨(stream_consistency_spec 100 "c" [] 1).1 (by decide),
    (stream_consistency_spec 100 "c" msConst 100).2.1 (by decide) (by decide) (by decide),
    (stream_consistency_spec 100 "c" msConst 100).2.2 (by decide) (by decide)⟩

theorem mem_insertDesc {α β : Type} [LinearOrder β] (key : α → β) (x a : α) (l : List α) :
    a ∈ insertDesc key x l ↔ a = x ∨ a ∈ l := by
  induction l with
  | nil => simp [insertDesc]
  | cons y ys ih =>
    unfold insertDesc
    split
    · simp only [List.mem_cons, ih]
      tauto
    · simp only [List.mem_cons]

theorem mem_sortDesc {α β : Type} [LinearOrder β] (key : α → β) (a : α) (l : List α) :
    a ∈ sortDesc key l ↔ a ∈ l := by
  induction l with
  | nil => simp [sortDesc]
  | cons x xs ih =>
    unfold sortDesc
    rw [mem_insertDesc, ih, List.mem_cons]

theorem pairwise_insertDesc {α β : Type} [LinearOrder β] (key : α → β) (x : α) (l : List α)
    (h : l.Pairwise (fun a b => key b ≤ key a)) :
    (insertDesc key x l).Pairwise (fun a b => key b ≤ key a) := by
  induction l with
  | nil => simp [insertDesc]
  | cons y ys ih =>
    rw [List.pairwise_cons] at h
    unfold insertDesc
    split
    · rename_i hxy
      rw [List.pairwise_cons]
      constructor
      · intro b hb
        rw [mem_insertDesc] at hb
        rcases hb with rfl | hb
        · exact le_of_lt hxy
        · exact h.1 b hb
      · exact ih h.2
    · rename_i hxy
      push_neg at hxy
      rw [List.pairwise_cons]
      constructor
      · intro b hb
        rw [List.mem_cons] at hb
        rcases hb with rfl | hb
        · exact hxy
        · exact le_trans (h.1 b hb) hxy
      · rw [List.pairwise_cons]
        exact ⟨h.1, h.2⟩

theorem pairwise_sortDesc {α β : Type} [LinearOrder β] (key : α → β) (l : List α) :
    (sortDesc key l).Pairwise (fun a b => key b ≤ key a) := by
  induction l with
  | nil => simp [sortDesc]
  | cons x xs ih => exact pairwise_insertDesc key x _ ih

theorem consistency_nonneg (now : Int) (track_id : String) (dbm : List TrackMetric)
    (lookback : Int) :
    0 ≤ SpotifyFeatures.calculate_stream_consistency now track_id dbm lookback := by
  unfold SpotifyFeatures.calculate_stream_consistency
  dsimp only
  split
  · norm_num
  · split
    · norm_num
    · split
      · norm_num
      · exact le_min (by norm_num) (le_max_left 0 _)

theorem active_months_ratio_nonneg (now : Int) (track_id : String) (dbm : List TrackMetric) :
    0 ≤ SpotifyFeatures.calculate_active_months_ratio now track_id dbm 365 := by
  unfold SpotifyFeatures.calculate_active_months_ratio
  dsimp only
  split
  · norm_num
  · apply le_min (by norm_num)
    positivity

theorem evergreen_total_eq (now : Int) (track_id : String) (dbm : List TrackMetric) :
    (EvergreenScorer.calculate_score now track_id dbm).1 =
      100 * ((40/100) * SpotifyFeatures.calculate_stream_consistency now track_id dbm 180
        + (30/100) * (SpotifyFeatures.calculate_active_months_ratio now track_id dbm 365 : ℝ)
        + (20/100) * (if SpotifyFeatures.calculate_stream_consistency now track_id dbm 180 > 8/10
            then 1
            else if SpotifyFeatures.calculate_stream_consistency now track_id dbm 180 > 6/10
            then 1/2 else 0)
        + (10/100) * (if SpotifyFeatures.has_chart_presence now track_id dbm 180
            then 1 else 0)) := by
  unfold EvergreenScorer.calculate_score
  simp [EVERGREEN_WEIGHTS, dictGet]
  ring_nf

theorem evergreen_score_nonneg (now : Int) (track_id : String) (dbm : List TrackMetric) :
    0 ≤ (EvergreenScorer.calculate_score now track_id dbm).1 := by
  rw [evergreen_total_eq]
  have h1 := consistency_nonneg now track_id dbm 180
  have h2 : (0:ℝ) ≤ (SpotifyFeatures.calculate_active_months_ratio now track_id dbm 365 : ℝ) := by
    exact_mod_cast active_months_ratio_nonneg now track_id dbm
  have h3 : (0:ℝ) ≤
      (if SpotifyFeatures.calculate_stream_consistency now track_id dbm 180 > 8/10 then 1
       else if SpotifyFeatures.calculate_stream_consistency now track_id dbm 180 > 6/10
       then 1/2 else (0:ℝ)) := by
    split
    · norm_num
    · split <;> norm_num
  have h4 : (0:ℝ) ≤
      (if SpotifyFeatures.has_chart_presence now track_id dbm 180 then 1 else (0:ℝ)) := by
    split <;> norm_num
  linarith

theorem mem_trending_select (now : Int) (db : Db) (limit : Nat) (min_score : ℚ)
    (platform country : Option String) (r : TrendingResult)
    (h : r ∈ (TrendingSelector.select_tracks now db limit min_score platform country).1) :
    ∃ t ∈ db.tracks, r = trendingResultRec now t db.metrics
      ∧ (TrendingScorer.calculate_score now t.id db.metrics).2.2 = true
      ∧ ¬((TrendingScorer.calculate_score now t.id db.metrics).1 < min_score) := by
  unfold TrendingSelector.select_tracks at h
  dsimp only at h
  have h2 := List.mem_of_mem_take h
  rw [mem_sortDesc, List.mem_filterMap] at h2
  obtain ⟨t, ht, hsome⟩ := h2
  refine ⟨t, ht, ?_⟩
  cases hcond : (!(TrendingScorer.calculate_score now t.id db.metrics).2.2 ||
      decide ((TrendingScorer.calculate_score now t.id db.metrics).1 < min_score)) with
  | true =>
    rw [hcond] at hsome
    exact absurd hsome (by simp)
  | false =>
    rw [hcond] at hsome
    rw [Bool.or_eq_false_iff] at hcond
    obtain ⟨hp, hm⟩ := hcond
    rw [Bool.not_eq_false'] at hp
    refine ⟨?_, hp, of_decide_eq_false hm⟩
    simpa using hsome.symm

theorem mem_evergreen_select (now : Int) (db : Db) (limit : Nat) (min_score : ℝ)
    (min_months : Int) (r : EvergreenResult)
    (h : r ∈ (EvergreenSelector.select_tracks now db limit min_score min_months).1) :
    ∃ t ∈ db.tracks, r = evergreenResultRec now t db.metrics
      ∧ (EvergreenScorer.calculate_score now t.id db.metrics).2.2 = true
      ∧ ¬((EvergreenScorer.calculate_score now t.id db.metrics).1 < min_score) := by
  unfold EvergreenSelector.select_tracks at h
  dsimp only at h
  have h2 := List.mem_of_mem_take h
  rw [mem_sortDesc, List.mem_filterMap] at h2
  obtain ⟨t, ht, hsome⟩ := h2
  have ht2 := (List.mem_filter.1 ht).1
  refine ⟨t, ht2, ?_⟩
  by_cases hcond : ((EvergreenScorer.calculate_score now t.id db.metrics).2.2 = false ∨
      (EvergreenScorer.calculate_score now t.id db.metrics).1 < min_score)
  · rw [if_pos hcond] at hsome
    cases hsome
  · rw [if_neg hcond] at hsome
    push_neg at hcond
    obtain ⟨hp, hm⟩ := hcond
    refine ⟨?_, ?_, not_lt.2 hm⟩
    · simpa using hsome.symm
    · exact Bool.ne_false_iff.1 hp

/-- C9, confirmed.  Both select_tracks operations return only records built
for candidates that pass the threshold gate with raw score at least
min_score, each record carrying its rounded components, summary,
why_selected and risk_flags (it equals the result-record constructor applied
to its track); the list is sorted descending by the stored (rounded) score,
holds at most limit entries, and the store is returned unchanged — nothing
is persisted. -/
theorem select_tracks_post (now : Int) (db : Db) (limit : Nat) (min_score_t : ℚ)
    (min_score_e : ℝ) (min_months : Int) (platform country : Option String)
    (r1 : TrendingResult) (r2 : EvergreenResult)
    (h1 : r1 ∈ (TrendingSelector.select_tracks now db limit min_score_t platform country).1)
    (h2 : r2 ∈ (EvergreenSelector.select_tracks now db limit min_score_e min_months).1) :
    (∃ t ∈ db.tracks, r1 = trendingResultRec now t db.metrics
      ∧ (TrendingScorer.calculate_score now t.id db.metrics).2.2 = true
      ∧ ¬((TrendingScorer.calculate_score now t.id db.metrics).1 < min_score_t))
  ∧ (∃ t ∈ db.tracks, r2 = evergreenResultRec now t db.metrics
      ∧ (EvergreenScorer.calculate_score now t.id db.metrics).2.2 = true
      ∧ ¬((EvergreenScorer.calculate_score now t.id db.metrics).1 < min_score_e))
  ∧ (TrendingSelector.select_tracks now db limit min_score_t platform country).1.Pairwise
      (fun a b => b.trending_score ≤ a.trending_score)
  ∧ (EvergreenSelector.select_tracks now db limit min_score_e min_months).1.Pairwise
      (fun a b => b.evergreen_score ≤ a.evergreen_score)
  ∧ (TrendingSelector.select_tracks now db limit min_score_t platform country).1.length ≤ limit
  ∧ (EvergreenSelector.select_tracks now db limit min_score_e min_months).1.length ≤ limit
  ∧ (TrendingSelector.select_tracks now db limit min_score_t platform country).2 = db
  ∧ (EvergreenSelector.select_tracks now db limit min_score_e min_months).2 = db := by
  refine ⟨mem_trending_select now db limit min_score_t platform country r1 h1,
    mem_evergreen_select now db limit min_score_e min_months r2 h2, ?_, ?_, ?_, ?_, rfl, rfl⟩
  · exact List.Pairwise.sublist (List.take_sublist _ _) (pairwise_sortDesc _ _)
  · exact List.Pairwise.sublist (List.take_sublist _ _) (pairwise_sortDesc _ _)
  · exact List.length_take_le _ _
  · exact List.length_take_le _ _

set_option maxRecDepth 1000000 in
/-- C9 witness: over the dbBoth store with limit 10 and min_score 0, the
trending list holds exactly the record for track t and the evergreen list
exactly the record for track e; the postcondition theorem applied to those
members yields the gate, score, sortedness, length and no-write facts. -/
theorem select_tracks_post_witness :
    (∃ t ∈ dbBoth.tracks, trendingResultRec 100 trkT dbBoth.metrics =
        trendingResultRec 100 t dbBoth.metrics
      ∧ (TrendingScorer.calculate_score 100 t.id dbBoth.metrics).2.2 = true
      ∧ ¬((TrendingScorer.calculate_score 100 t.id dbBoth.metrics).1 < (0:ℚ)))
  ∧ (∃ t ∈ dbBoth.tracks, evergreenResultRec 100 trkE dbBoth.metrics =
        evergreenResultRec 100 t dbBoth.metrics
      ∧ (EvergreenScorer.calculate_score 100 t.id dbBoth.metrics).2.2 = true
      ∧ ¬((EvergreenScorer.calculate_score 100 t.id dbBoth.metrics).1 < (0:ℝ)))
  ∧ (TrendingSelector.select_tracks 100 dbBoth 10 0 none none).1.Pairwise
      (fun a b => b.trending_score ≤ a.trending_score)
  ∧ (EvergreenSelector.select_tracks 100 dbBoth 10 0 6).1.Pairwise
      (fun a b => b.evergreen_score ≤ a.evergreen_score)
  ∧ (TrendingSelector.select_tracks 100 dbBoth 10 0 none none).1.length ≤ 10
  ∧ (EvergreenSelector.select_tracks 100 dbBoth 10 0 6).1.length ≤ 10
  ∧ (TrendingSelector.select_tracks 100 dbBoth 10 0 none none).2 = dbBoth
  ∧ (EvergreenSelector.select_tracks 100 dbBoth 10 0 6).2 = dbBoth := by
  have h1 : trendingResultRec 100 trkT dbBoth.metrics ∈
      (TrendingSelector.select_tracks 100 dbBoth 10 0 none none).1 := by
    rw [show (TrendingSelector.select_tracks 100 dbBoth 10 0 none none).1 =
      [trendingResultRec 100 trkT dbBoth.metrics] from by with_unfolding_all rfl]
    exact List.mem_singleton.2 rfl
  have hpass : (EvergreenScorer.calculate_score 100 trkE.id dbBoth.metrics).2.2 = true := by
    with_unfolding_all rfl
  have hnn := evergreen_score_nonneg 100 trkE.id dbBoth.metrics
  have hcond : ¬((EvergreenScorer.calculate_score 100 trkE.id dbBoth.metrics).2.2 = false ∨
      (EvergreenScorer.calculate_score 100 trkE.id dbBoth.metrics).1 < (0:ℝ)) := by
    rintro (hfalse | hlt)
    · rw [hpass] at hfalse
      cases hfalse
    · linarith
  have h2 : evergreenResultRec 100 trkE dbBoth.metrics ∈
      (EvergreenSelector.select_tracks 100 dbBoth 10 0 6).1 := by
    unfold EvergreenSelector.select_tracks
    dsimp only
    rw [show dbBoth.tracks.filter
        (fun t => decide (t.first_discovered.day ≤ 100 - 6 * 30)) = [trkE] from by
      with_unfolding_all rfl]
    rw [List.filterMap_cons]
    rw [if_neg hcond]
    rw [show (sortDesc (fun x : EvergreenResult => x.evergreen_score)
        (evergreenResultRec 100 trkE dbBoth.metrics :: List.filterMap _ [])).take 10 =
        [evergreenResultRec 100 trkE dbBoth.metrics] from by
      rw [List.filterMap_nil]
      rfl]
    exact List.mem_singleton.2 rfl
  exact select_tracks_post 100 dbBoth 10 0 0 6 none none
    (trendingResultRec 100 trkT dbBoth.metrics)
    (evergreenResultRec 100 trkE dbBoth.metrics) h1 h2
